import Mathlib

/-!
Verification development for the geospatial visualization module
(`geoplot.py`): a shallow embedding of the state-to-geometry pipeline
(path resolution, trajectory extraction, timeline synthesis, GeoJSON
assembly, and viewer-template substitution), followed by theorems that
settle the specification claims against it.

Numbers are modelled exactly: Python ints as `Int`, Python floats as
`Rat` (the pipeline performs no operations whose float rounding is
observable in any claim), timestamps as rational seconds with the
render-invocation wall clock passed in as a parameter.  Fallible code
returns `Except RenderError`.
-/

/-- A JSON-like value: the shape of nested simulation state, configs and
options.  Python ints and floats are distinguished (`int` vs `num`)
because the code multiplies episode counts for `range`, which requires
ints. -/
inductive JValue where
  | int (n : ℤ)
  | num (q : ℚ)
  | str (s : String)
  | arr (xs : List JValue)
  | obj (kvs : List (String × JValue))

/-- Error conditions of the pipeline: Python KeyError (with the missing
key), path resolution failure, TypeError, IndexError, `Template`
ValueError on an invalid placeholder, and exhausted fuel (internal,
never reached by the wrapper). -/
inductive RenderError where
  | keyError (k : String)
  | pathError
  | typeError
  | indexError
  | valueError
  | fuelError
deriving DecidableEq, Inhabited

/-- Lift an `Option` into `Except`, raising the given error on `none`. -/
def ofOpt (e : RenderError) : Option α → Except RenderError α
  | some a => Except.ok a
  | none => Except.error e

/-- Option-valued map over a list, failing if any element fails. -/
def mapO (f : α → Option β) : List α → Option (List β)
  | [] => some []
  | a :: as =>
    match f a, mapO f as with
    | some b, some bs => some (b :: bs)
    | _, _ => none

/-- Except-valued map over a list, propagating the first error. -/
def mapE (f : α → Except RenderError β) : List α → Except RenderError (List β)
  | [] => Except.ok []
  | a :: as =>
    match f a with
    | Except.ok b =>
      match mapE f as with
      | Except.ok bs => Except.ok (b :: bs)
      | Except.error e => Except.error e
    | Except.error e => Except.error e

/-- Except-valued left fold, propagating the first error. -/
def foldE (f : β → α → Except RenderError β) : β → List α → Except RenderError β
  | b, [] => Except.ok b
  | b, a :: as =>
    match f b a with
    | Except.ok b2 => foldE f b2 as
    | Except.error e => Except.error e

/-- Python dictionary subscript `d[k]`: KeyError when the key is absent,
TypeError when the value is not a mapping. -/
def dictGet (j : JValue) (k : String) : Except RenderError JValue :=
  match j with
  | JValue.obj kvs => ofOpt (RenderError.keyError k) (kvs.lookup k)
  | _ => Except.error RenderError.typeError

/-- Split a character list at every occurrence of the separator
(`re.split` on the fixed single-character pattern `/`). -/
def splitChar (c : Char) : List Char → List (List Char)
  | [] => [[]]
  | x :: xs =>
    if x = c then [] :: splitChar c xs
    else
      match splitChar c xs with
      | [] => [[x]]
      | g :: gs => (x :: g) :: gs

/-- String form of `splitChar`. -/
def splitSlash (s : String) : List String :=
  (splitChar '/' s.toList).map String.mk

/-- Value of a decimal digit. -/
def decDigit? (c : Char) : Option ℕ :=
  if c.isDigit then some (c.toNat - 48) else none

/-- Parse a nonempty all-digit string as a natural number (used for
positional index segments of a path). -/
def decNat? (s : String) : Option ℕ :=
  match s.toList with
  | [] => none
  | cs => cs.foldl (fun acc c =>
      match acc, decDigit? c with
      | some n, some d => some (n * 10 + d)
      | _, _ => none) (some 0)

/-- Modelled from the spec: `get_by_path` (imported from
`agent_torch.core.helpers`, whose source is not part of this
repository).  Per spec section 4.1 it traverses the state segment by
segment, using map lookup on keyed containers and positional indexing
on sequences, and fails with a path-not-found condition if a segment is
absent or a non-traversable leaf is reached before the path is
exhausted. -/
def get_by_path : JValue → List String → Option JValue
  | v, [] => some v
  | JValue.obj kvs, k :: ks =>
    match kvs.lookup k with
    | some v => get_by_path v ks
    | none => none
  | JValue.arr xs, k :: ks =>
    match decNat? k with
    | some i =>
      match xs.get? i with
      | some v => get_by_path v ks
      | none => none
    | none => none
  | _, _ :: _ => none

/-- Source `read_var`: resolve a slash-delimited path in a nested state
(the Python `re.split("/", var)` on this fixed pattern is plain
splitting on the separator). -/
def read_var (state : JValue) (var : String) : Option JValue :=
  get_by_path state (splitSlash var)

/-- Python `str` coercion for the values this pipeline passes to string
contexts (template substitution values and file-name interpolation);
claims exercise only string and numeric values. -/
def pyStr : JValue → String
  | JValue.str s => s
  | JValue.int n => toString n
  | JValue.num q => toString q
  | JValue.arr _ => ""
  | JValue.obj _ => ""

/-- Require a Python string (TypeError otherwise). -/
def strOfE : JValue → Except RenderError String
  | JValue.str s => Except.ok s
  | _ => Except.error RenderError.typeError

/-- Require a Python int (TypeError otherwise), as `range` and integer
multiplication of the episode counts do. -/
def toIntE : JValue → Except RenderError ℤ
  | JValue.int n => Except.ok n
  | _ => Except.error RenderError.typeError

/-- Require a Python number (int or float), as the timeline arithmetic
`i * step_time` does. -/
def toRatE : JValue → Except RenderError ℚ
  | JValue.int n => Except.ok (n : ℚ)
  | JValue.num q => Except.ok q
  | _ => Except.error RenderError.typeError

/-- Numeric leaf of a state array. -/
def toScalar : JValue → Option ℚ
  | JValue.int n => some (n : ℚ)
  | JValue.num q => some q
  | _ => none

/-- A row of numbers. -/
def toRow : JValue → Option (List ℚ)
  | JValue.arr xs => mapO toScalar xs
  | _ => none

/-- Source `np.array(...).tolist()` on the coordinates path: the
RenderOptions contract makes it a per-agent array of [lat, lon] pairs,
so the conversion is the identity on a rank-2 numeric array (and the
array constructor rejects other shapes). -/
def jToMatrix : JValue → Option (List (List ℚ))
  | JValue.arr xs => mapO toRow xs
  | _ => none

/-- Source `np.array(...).flatten().tolist()` on the feature path: the
RenderOptions contract makes it a per-agent scalar array (rank at most
2 in practice, e.g. an n-by-1 column); flattening yields the scalars in
row order. -/
def npFlatten : JValue → Option (List ℚ)
  | JValue.int n => some [(n : ℚ)]
  | JValue.num q => some [q]
  | JValue.arr xs =>
    (mapO (fun x =>
      match x with
      | JValue.int n => some [(n : ℚ)]
      | JValue.num q => some [q]
      | JValue.arr ys => mapO toScalar ys
      | _ => none) xs).map List.flatten
  | _ => none

/-- The visualization engine: `GeoPlot.__init__` stores the config and
the five recognized options verbatim. -/
structure GeoPlot where
  config : JValue
  cesium_token : JValue
  step_time : JValue
  entity_position : JValue
  entity_property : JValue
  visualization_type : JValue

/-- Source `GeoPlot.__init__`: destructures the five options by
dictionary subscript, left to right, so a missing key raises KeyError
naming the first absent option. -/
def GeoPlot.init (config : JValue) (options : JValue) : Except RenderError GeoPlot := do
  let ct ← dictGet options "cesium_token"
  let st ← dictGet options "step_time"
  let ep ← dictGet options "coordinates"
  let pr ← dictGet options "feature"
  let vt ← dictGet options "visualization_type"
  Except.ok { config := config, cesium_token := ct, step_time := st,
              entity_position := ep, entity_property := pr, visualization_type := vt }

/-- The final per-step snapshot of each processed episode: the loop
`for i in range(len(state_trajectory) - 1)` reads
`state_trajectory[i][-1]` and nothing else of the trajectory.  `none`
records an IndexError from `[-1]` on an empty episode. -/
def finalStates (traj : List (List JValue)) : List (Option JValue) :=
  (List.range (traj.length - 1)).map (fun i => (traj.getD i []).getLast?)

/-- One iteration of the extraction loop (source lines 227-234):
overwrite `coords` with the resolved coordinates of this episode and
append the flattened feature values. -/
def extractStep (posJ propJ : JValue) (acc : List (List ℚ) × List (List ℚ))
    (fs : Option JValue) : Except RenderError (List (List ℚ) × List (List ℚ)) := do
  let final_state ← ofOpt RenderError.indexError fs
  let pos ← strOfE posJ
  let cj ← ofOpt RenderError.pathError (read_var final_state pos)
  let coords ← ofOpt RenderError.typeError (jToMatrix cj)
  let prop ← strOfE propJ
  let vj ← ofOpt RenderError.pathError (read_var final_state prop)
  let v ← ofOpt RenderError.typeError (npFlatten vj)
  Except.ok (coords, acc.2 ++ [v])

/-- The whole extraction loop: fold the per-episode step over the final
snapshots of episodes 0 .. n-2, starting from `coords, values = [], []`. -/
def extract (posJ propJ : JValue) (traj : List (List JValue)) :
    Except RenderError (List (List ℚ) × List (List ℚ)) :=
  foldE (extractStep posJ propJ) ([], []) (finalStates traj)

/-- Source timeline comprehension: `total_steps` timestamps starting at
the wall-clock base, `step_time` seconds apart (timestamps are modelled
as rational seconds). -/
def timeline (start_time step_time : ℚ) (total_steps : ℕ) : List ℚ :=
  (List.range total_steps).map (fun (i : ℕ) => start_time + (i : ℚ) * step_time)

/-- One emitted GeoJSON feature: a point geometry (coordinate pair in
[longitude, latitude] order) with a scalar value and a timestamp. -/
structure Feature where
  coordinates : List ℚ
  value : ℚ
  time : ℚ
deriving DecidableEq

/-- One feature of the comprehension at source lines 248-261: geometry
`[coord[1], coord[0]]`, value `value_list[idx]`, time the timestamp.
List indexing raises IndexError out of range. -/
def buildFeature (idx : ℕ) (coord : List ℚ) (time : ℚ) (value_list : List ℚ) :
    Except RenderError Feature := do
  let c1 ← ofOpt RenderError.indexError (coord.get? 1)
  let c0 ← ofOpt RenderError.indexError (coord.get? 0)
  let v ← ofOpt RenderError.indexError (value_list.get? idx)
  Except.ok { coordinates := [c1, c0], value := v, time := time }

/-- The features of one agent: one per `zip(timestamps, values)` pair,
truncated to the shorter sequence as Python zip is. -/
def buildCollection (timestamps : List ℚ) (values : List (List ℚ)) (idx : ℕ)
    (coord : List ℚ) : Except RenderError (List Feature) :=
  mapE (fun p => buildFeature idx coord p.1 p.2) (timestamps.zip values)

/-- Python `enumerate` starting at the given index. -/
def enumFrom (k : ℕ) : List α → List (ℕ × α)
  | [] => []
  | a :: as => (k, a) :: enumFrom (k + 1) as

/-- The full GeoJSON assembly loop (source lines 246-262): one feature
collection per entry of `enumerate(coords)`. -/
def buildGeojsons (coords : List (List ℚ)) (timestamps : List ℚ)
    (values : List (List ℚ)) : Except RenderError (List (List Feature)) :=
  mapE (fun p => buildCollection timestamps values p.1 p.2) (enumFrom 0 coords)

/-- Timestamp rendering (`pd.Timestamp.isoformat`), abstracted to the
canonical rendering of the rational second count; the claims use it
only as an opaque injection into strings. -/
def isoformat (t : ℚ) : String := toString t

/-- Join strings with the JSON separator. -/
def commaJoin : List String → String
  | [] => ""
  | [s] => s
  | s :: rest => s ++ ", " ++ commaJoin rest

/-- JSON rendering of a number (indentation and float formatting of the
Python serializer are abstracted; the structure and key names are
preserved). -/
def ratJson (q : ℚ) : String := toString q

/-- JSON rendering of one feature, with the exact key layout built at
source lines 249-259. -/
def jsonOfFeature (f : Feature) : String :=
  "\x7b\"type\": \"Feature\", \"geometry\": \x7b\"type\": \"Point\", \"coordinates\": ["
    ++ commaJoin (f.coordinates.map ratJson)
    ++ "]\x7d, \"properties\": \x7b\"value\": " ++ ratJson f.value
    ++ ", \"time\": \"" ++ isoformat f.time ++ "\"\x7d\x7d"

/-- JSON rendering of one feature collection. -/
def jsonOfCollection (fc : List Feature) : String :=
  "\x7b\"type\": \"FeatureCollection\", \"features\": ["
    ++ commaJoin (fc.map jsonOfFeature) ++ "]\x7d"

/-- JSON rendering of the full geodata document (`json.dump` of the
list of collections); the empty list renders as the empty array. -/
def jsonDumpCollections (cols : List (List Feature)) : String :=
  "[" ++ commaJoin (cols.map jsonOfCollection) ++ "]"

/-- First character of a template placeholder identifier
(Python `string.Template` default id pattern). -/
def isIdentStart (c : Char) : Bool := c.isAlpha || c = '_'

/-- Subsequent character of a template placeholder identifier. -/
def isIdentChar (c : Char) : Bool := c.isAlphanum || c = '_'

/-- Scanner state of the substitution engine: ordinary text, just after
an unescaped dollar, inside an unbraced placeholder identifier
(collected in reverse), or inside a braced placeholder identifier. -/
inductive SubstMode where
  | plain
  | afterDollar
  | ident (identRev : List Char)
  | braced (identRev : List Char)

/-- Python `string.Template.substitute` as a character state machine
(structurally recursive, output accumulated in reverse): `$$` is an
escaped dollar, `$ident` and `$\x7bident\x7d` splice the mapping value
(KeyError when the identifier is not a mapping key; extra mapping
entries such as an entry without a placeholder are ignored), and any
other `$` raises ValueError.  Replacement values are spliced verbatim
and not rescanned. -/
def substGo (m : List (String × String)) :
    SubstMode → List Char → List Char → Except RenderError (List Char)
  | SubstMode.plain, acc, [] => Except.ok acc.reverse
  | SubstMode.afterDollar, _, [] => Except.error RenderError.valueError
  | SubstMode.ident identRev, acc, [] =>
    match m.lookup (String.mk identRev.reverse) with
    | some v => Except.ok (List.reverseAux v.toList acc).reverse
    | none => Except.error (RenderError.keyError (String.mk identRev.reverse))
  | SubstMode.braced _, _, [] => Except.error RenderError.valueError
  | SubstMode.plain, acc, c :: rest =>
    if c = '$' then substGo m SubstMode.afterDollar acc rest
    else substGo m SubstMode.plain (c :: acc) rest
  | SubstMode.afterDollar, acc, c :: rest =>
    if c = '$' then substGo m SubstMode.plain ('$' :: acc) rest
    else if c = '\x7b' then substGo m (SubstMode.braced []) acc rest
    else if isIdentStart c then substGo m (SubstMode.ident [c]) acc rest
    else Except.error RenderError.valueError
  | SubstMode.ident identRev, acc, c :: rest =>
    if isIdentChar c then substGo m (SubstMode.ident (c :: identRev)) acc rest
    else
      match m.lookup (String.mk identRev.reverse) with
      | some v =>
        if c = '$' then substGo m SubstMode.afterDollar (List.reverseAux v.toList acc) rest
        else substGo m SubstMode.plain (c :: List.reverseAux v.toList acc) rest
      | none => Except.error (RenderError.keyError (String.mk identRev.reverse))
  | SubstMode.braced identRev, acc, c :: rest =>
    if c = '\x7d' then
      if identRev ≠ [] ∧ isIdentStart (identRev.reverse.headD 'a') then
        match m.lookup (String.mk identRev.reverse) with
        | some v => substGo m SubstMode.plain (List.reverseAux v.toList acc) rest
        | none => Except.error (RenderError.keyError (String.mk identRev.reverse))
      else Except.error RenderError.valueError
    else if isIdentChar c then substGo m (SubstMode.braced (c :: identRev)) acc rest
    else Except.error RenderError.valueError

/-- `Template(t).substitute(m)`. -/
def substitute (m : List (String × String)) (t : String) : Except RenderError String :=
  (substGo m SubstMode.plain [] t.toList).map String.mk

/-- A placeholder occurrence in template text: a dollar followed by the
identifier. -/
def ph (s : String) : List Char := '$' :: s.toList

/-- Template piece 0: the text before the `$accessToken` placeholder. -/
def tP0 : List Char :=
  "\n<!doctype html>\n<html lang=\"en\">\n\t<head>\n\t\t<!-- Cesium JS dependencie".toList
    ++ ("s and basic styling -->\n\t\t<meta charset=\"UTF-8\" />\n\t\t<meta name=\"viewp".toList
    ++ ("ort\" content=\"width=device-width, initial-scale=1.0\" />\n\t\t<title>Cesiu".toList
    ++ ("m Time-Series Heatmap Visualization</title>\n\t\t<script src=\"https://ces".toList
    ++ ("ium.com/downloads/cesiumjs/releases/1.95/Build/Cesium/Cesium.js\"></scr".toList
    ++ ("ipt>\n\t\t<link href=\"https://cesium.com/downloads/cesiumjs/releases/1.95".toList
    ++ ("/Build/Cesium/Widgets/widgets.css\" rel=\"stylesheet\" />\n\t\t<style>\n\t\t\t#c".toList
    ++ ("esiumContainer \x7b\n\t\t\t\twidth: 100%;\n\t\t\t\theight: 100%;\n\t\t\t\x7d\n\t\t</style>\n\t<".toList
    ++ ("/head>\n\t<body>\n\t\t<div id=\"cesiumContainer\"></div>\n\t\t<script>\n\t\t\t// Ces".toList
    ++ ("ium initialization and configuration\n\t\t\tCesium.Ion.defaultAccessToken ".toList
    ++ ("= \x27".toList))))))))))

/-- Body of template piece 1 (everything after its leading apostrophe). -/
def tP1b : List Char :=
  "\n\t\t\tconst viewer = new Cesium.Viewer(\x27cesiumContainer\x27)\n\n\t\t\t// Color i".toList
    ++ ("nterpolation for value visualization\n\t\t\tfunction interpolateColor(colo".toList
    ++ ("r1, color2, factor) \x7b\n\t\t\t\tconst result = new Cesium.Color()\n\t\t\t\tresult".toList
    ++ (".red = color1.red + factor * (color2.red - color1.red)\n\t\t\t\tresult.gree".toList
    ++ ("n = color1.green + factor * (color2.green - color1.green)\n\t\t\t\tresult.b".toList
    ++ ("lue = color1.blue + factor * (color2.blue - color1.blue)\n\t\t\t\tresult.al".toList
    ++ ("pha = \x27".toList))))))

/-- Template piece 1: the text between the `$accessToken` placeholder and the next one; its leading apostrophe (the boundary character that ends the placeholder identifier) is exposed as a cons cell. -/
def tP1 : List Char := '\x27' :: tP1b

/-- Body of template piece 2 (everything after its leading apostrophe). -/
def tP2b : List Char :=
  " == \x27size\x27 ? 0.2 : \n\t\t\t\t\tcolor1.alpha + factor * (color2.alpha - color".toList
    ++ ("1.alpha)\n\t\t\t\treturn result\n\t\t\t\x7d\n\n\t\t\t// Value-to-color mapping with nor".toList
    ++ ("malization\n\t\t\tfunction getColor(value, min, max) \x7b\n\t\t\t\tconst factor = ".toList
    ++ ("(value - min) / (max - min)\n\t\t\t\treturn interpolateColor(Cesium.Color.B".toList
    ++ ("LUE, Cesium.Color.RED, factor)\n\t\t\t\x7d\n\n\t\t\t// Size scaling for size-based".toList
    ++ (" visualization\n\t\t\tfunction getPixelSize(value, min, max) \x7b\n\t\t\t\tconst f".toList
    ++ ("actor = (value - min) / (max - min)\n\t\t\t\treturn 100 * (1 + factor)\n\t\t\t\x7d".toList
    ++ ("\n\n\t\t\t// Process GeoJSON data into time-series format\n\t\t\tfunction proce".toList
    ++ ("ssTimeSeriesData(geoJsonData) \x7b\n\t\t\t\tconst timeSeriesMap = new Map()\n\t\t".toList
    ++ ("\t\tlet minValue = Infinity\n\t\t\t\tlet maxValue = -Infinity\n\n\t\t\t\tgeoJsonDat".toList
    ++ ("a.features.forEach((feature) => \x7b\n\t\t\t\t\tconst id = feature.properties.i".toList
    ++ ("d\n\t\t\t\t\tconst time = Cesium.JulianDate.fromIso8601(feature.properties.t".toList
    ++ ("ime)\n\t\t\t\t\tconst value = feature.properties.value\n\t\t\t\t\tconst coordinate".toList
    ++ ("s = feature.geometry.coordinates\n\n\t\t\t\t\tif (!timeSeriesMap.has(id)) tim".toList
    ++ ("eSeriesMap.set(id, [])\n\t\t\t\t\ttimeSeriesMap.get(id).push(\x7b time, value, ".toList
    ++ ("coordinates \x7d)\n\n\t\t\t\t\tminValue = Math.min(minValue, value)\n\t\t\t\t\tmaxValu".toList
    ++ ("e = Math.max(maxValue, value)\n\t\t\t\t\x7d)\n\n\t\t\t\treturn \x7b timeSeriesMap, minV".toList
    ++ ("alue, maxValue \x7d\n\t\t\t\x7d\n\n\t\t\t// Create Cesium entities for visualization\n".toList
    ++ ("\t\t\tfunction createTimeSeriesEntities(timeSeriesData, startTime, stopTi".toList
    ++ ("me) \x7b\n\t\t\t\tconst dataSource = new Cesium.CustomDataSource(\x27AgentTorch S".toList
    ++ ("imulation\x27)\n\n\t\t\t\tfor (const [id, timeSeries] of timeSeriesData.timeSer".toList
    ++ ("iesMap) \x7b\n\t\t\t\t\tconst entity = new Cesium.Entity(\x7b\n\t\t\t\t\t\tid: id,\n\t\t\t\t\t\t".toList
    ++ ("availability: new Cesium.TimeIntervalCollection([\n\t\t\t\t\t\t\tnew Cesium.Ti".toList
    ++ ("meInterval(\x7b start: startTime, stop: stopTime \x7d),\n\t\t\t\t\t\t]),\n\t\t\t\t\t\tposi".toList
    ++ ("tion: new Cesium.SampledPositionProperty(),\n\t\t\t\t\t\tpoint: \x7b\n\t\t\t\t\t\t\tpixe".toList
    ++ ("lSize: \x27".toList)))))))))))))))))))))))))

/-- Template piece 2: the text between the `$visualType` placeholder and the next one; its leading apostrophe (the boundary character that ends the placeholder identifier) is exposed as a cons cell. -/
def tP2 : List Char := '\x27' :: tP2b

/-- Body of template piece 3 (everything after its leading apostrophe). -/
def tP3b : List Char :=
  " == \x27size\x27 ? new Cesium.SampledProperty(Number) : 10,\n\t\t\t\t\t\t\tcolor: ne".toList
    ++ ("w Cesium.SampledProperty(Cesium.Color),\n\t\t\t\t\t\t\x7d,\n\t\t\t\t\t\tproperties: \x7b v".toList
    ++ ("alue: new Cesium.SampledProperty(Number) \x7d,\n\t\t\t\t\t\x7d)\n\n\t\t\t\t\ttimeSeries.f".toList
    ++ ("orEach((\x7b time, value, coordinates \x7d) => \x7b\n\t\t\t\t\t\tconst position = Cesi".toList
    ++ ("um.Cartesian3.fromDegrees(coordinates[0], coordinates[1])\n\t\t\t\t\t\tentity".toList
    ++ (".position.addSample(time, position)\n\t\t\t\t\t\tentity.properties.value.addS".toList
    ++ ("ample(time, value)\n\t\t\t\t\t\tentity.point.color.addSample(time, getColor(v".toList
    ++ ("alue, timeSeriesData.minValue, timeSeriesData.maxValue))\n\n\t\t\t\t\t\tif (\x27".toList)))))))

/-- Template piece 3: the text between the `$visualType` placeholder and the next one; its leading apostrophe (the boundary character that ends the placeholder identifier) is exposed as a cons cell. -/
def tP3 : List Char := '\x27' :: tP3b

/-- Body of template piece 4 (everything after its leading apostrophe). -/
def tP4b : List Char :=
  " == \x27size\x27) \x7b\n\t\t\t\t\t\t\tentity.point.pixelSize.addSample(time, \n\t\t\t\t\t\t\t\tg".toList
    ++ ("etPixelSize(value, timeSeriesData.minValue, timeSeriesData.maxValue))\n".toList
    ++ ("\t\t\t\t\t\t\x7d\n\t\t\t\t\t\x7d)\n\t\t\t\t\tdataSource.entities.add(entity)\n\t\t\t\t\x7d\n\t\t\t\treturn ".toList
    ++ ("dataSource\n\t\t\t\x7d\n\n\t\t\t// Initialize timeline and load data\n\t\t\tconst star".toList
    ++ ("t = Cesium.JulianDate.fromIso8601(\x27".toList))))

/-- Template piece 4: the text between the `$visualType` placeholder and the next one; its leading apostrophe (the boundary character that ends the placeholder identifier) is exposed as a cons cell. -/
def tP4 : List Char := '\x27' :: tP4b

/-- Body of template piece 5 (everything after its leading apostrophe). -/
def tP5b : List Char :=
  ")\n\t\t\tconst stop = Cesium.JulianDate.fromIso8601(\x27".toList

/-- Template piece 5: the text between the `$startTime` placeholder and the next one; its leading apostrophe (the boundary character that ends the placeholder identifier) is exposed as a cons cell. -/
def tP5 : List Char := '\x27' :: tP5b

/-- Body of template piece 6 (everything after its leading apostrophe). -/
def tP6b : List Char :=
  ")\n\t\t\tviewer.clock.startTime = start.clone()\n\t\t\tviewer.clock.stopTime =".toList
    ++ (" stop.clone()\n\t\t\tviewer.clock.currentTime = start.clone()\n\t\t\tviewer.cl".toList
    ++ ("ock.clockRange = Cesium.ClockRange.LOOP_STOP\n\t\t\tviewer.clock.multiplie".toList
    ++ ("r = 3600 // 1 hour per second\n\t\t\tviewer.timeline.zoomTo(start, stop)\n\n".toList
    ++ ("\t\t\t// Load all GeoJSON datasets\n\t\t\tfor (const geoJsonData of geoJsons)".toList
    ++ (" \x7b\n\t\t\t\tconst timeSeriesData = processTimeSeriesData(geoJsonData)\n\t\t\t\tc".toList
    ++ ("onst dataSource = createTimeSeriesEntities(timeSeriesData, start, stop".toList
    ++ (")\n\t\t\t\tviewer.dataSources.add(dataSource)\n\t\t\t\tviewer.zoomTo(dataSource)".toList
    ++ ("\n\t\t\t\x7d\n\t\t</script>\n\t</body>\n</html>\n".toList))))))))

/-- Template piece 6: the text after the final `$stopTime` placeholder; its leading apostrophe (the boundary character that ends the placeholder identifier) is exposed as a cons cell. -/
def tP6 : List Char := '\x27' :: tP6b

/-- Source `geoplot_template` (lines 33-156): the fixed Cesium viewer
markup, reproduced verbatim but factored into its seven literal pieces
with the six placeholder occurrences (`$accessToken`, `$visualType`
three times, `$startTime`, `$stopTime`, in that order) spliced between
them; quotes, braces and apostrophes are written as character escapes.
The factored form keeps every concrete computation over the template
within the small-step budget of kernel reduction. -/
def templateChars : List Char :=
  tP0 ++ (ph "accessToken" ++ (tP1 ++ (ph "visualType" ++ (tP2 ++ (ph "visualType"
    ++ (tP3 ++ (ph "visualType" ++ (tP4 ++ (ph "startTime" ++ (tP5
    ++ (ph "stopTime" ++ tP6)))))))))))

/-- The template as a string. -/
def geoplot_template : String := String.mk templateChars

/-- The substitution dictionary built at source lines 270-276, in
source order; `str` is applied to each value as `Template.substitute`
does. -/
def renderMapping (g : GeoPlot) (t0 tN : ℚ) (dataStr : String) :
    List (String × String) :=
  [("accessToken", pyStr g.cesium_token),
   ("startTime", isoformat t0),
   ("stopTime", isoformat tN),
   ("data", dataStr),
   ("visualType", pyStr g.visualization_type)]

/-- Everything a successful `render` call produces or writes: the two
output paths, the extracted intermediates, the feature collections,
the serialized geodata document, the substitution mapping, and the
substituted viewer document. -/
structure RenderOutput where
  geodata_path : String
  geoplot_path : String
  coords : List (List ℚ)
  values : List (List ℚ)
  timestamps : List ℚ
  geojsons : List (List Feature)
  geojson_file : String
  mapping : List (String × String)
  html_file : String
deriving DecidableEq, Inhabited

/-- Source `GeoPlot.render` (lines 209-276), with the wall-clock base
`pd.Timestamp.utcnow()` passed in as `start_time`.  The statement order
follows the source: resolve the simulation name, run the extraction
loop, resolve the episode counts and build the timeline, assemble the
feature collections, serialize the geodata document, then build the
substitution mapping (indexing `timestamps[0]` and `timestamps[-1]`)
and substitute into the fixed template. -/
def GeoPlot.render (g : GeoPlot) (state_trajectory : List (List JValue))
    (start_time : ℚ) : Except RenderError RenderOutput := do
  let md ← dictGet g.config "simulation_metadata"
  let sim_name ← dictGet md "name"
  let cv ← extract g.entity_position g.entity_property state_trajectory
  let md2 ← dictGet g.config "simulation_metadata"
  let ne ← dictGet md2 "num_episodes"
  let numEpisodes ← toIntE ne
  let md3 ← dictGet g.config "simulation_metadata"
  let ns ← dictGet md3 "num_steps_per_episode"
  let numSteps ← toIntE ns
  let stepTime ← toRatE g.step_time
  let timestamps := timeline start_time stepTime (numEpisodes * numSteps).toNat
  let geojsons ← buildGeojsons cv.1 timestamps cv.2
  let t0 ← ofOpt RenderError.indexError timestamps.head?
  let tN ← ofOpt RenderError.indexError timestamps.getLast?
  let mapping := renderMapping g t0 tN (jsonDumpCollections geojsons)
  let html ← substitute mapping geoplot_template
  Except.ok { geodata_path := pyStr sim_name ++ ".geojson",
              geoplot_path := pyStr sim_name ++ ".html",
              coords := cv.1, values := cv.2, timestamps := timestamps,
              geojsons := geojsons,
              geojson_file := jsonDumpCollections geojsons,
              mapping := mapping, html_file := html }

/-- Whether `pat` is a prefix of the second list (character scan used to
state substring facts about documents). -/
def beginsWith : List Char → List Char → Bool
  | [], _ => true
  | _ :: _, [] => false
  | p :: ps, c :: cs => p == c && beginsWith ps cs

/-- Whether `pat` occurs contiguously anywhere in the second list. -/
def containsSeq (pat : List Char) : List Char → Bool
  | [] => beginsWith pat []
  | c :: cs => beginsWith pat (c :: cs) || containsSeq pat cs

/-- String form of `containsSeq`. -/
def strContains (s pat : String) : Bool := containsSeq pat.toList s.toList

/-- The result of substituting into the template: the seven literal
pieces with the looked-up values spliced in place of the placeholders
(access token, visualization type three times, start and stop
timestamps; the `data` entry has no placeholder). -/
def substitutedTemplate (g : GeoPlot) (t0 tN : ℚ) : String :=
  String.mk (tP0 ++ ((pyStr g.cesium_token).toList ++ (tP1
    ++ ((pyStr g.visualization_type).toList ++ (tP2
    ++ ((pyStr g.visualization_type).toList ++ (tP3
    ++ ((pyStr g.visualization_type).toList ++ (tP4
    ++ ((isoformat t0).toList ++ (tP5
    ++ ((isoformat tN).toList ++ tP6))))))))))))

/-- The four placeholder tokens of the template. -/
def placeholderTokens : List String :=
  ["$accessToken", "$startTime", "$stopTime", "$visualType"]

/-- The five recognized option keys, in the order `__init__` reads
them. -/
def optionKeys : List String :=
  ["cesium_token", "step_time", "coordinates", "feature", "visualization_type"]

/-- Concrete final snapshot of episode 0: one agent at [1.0, 2.0] with
property value 10. -/
def s0 : JValue :=
  JValue.obj [("agents", JValue.obj [("citizens", JValue.obj
    [("coordinates", JValue.arr [JValue.arr [JValue.num 1, JValue.num 2]]),
     ("money_spent", JValue.arr [JValue.num 10])])])]

/-- Concrete final snapshot of episode 1: one agent at [3.0, 4.0] with
property value 20. -/
def s1 : JValue :=
  JValue.obj [("agents", JValue.obj [("citizens", JValue.obj
    [("coordinates", JValue.arr [JValue.arr [JValue.num 3, JValue.num 4]]),
     ("money_spent", JValue.arr [JValue.num 20])])])]

/-- Concrete simulation config: name `sim`, 3 episodes, 2 steps per
episode. -/
def configGood : JValue :=
  JValue.obj [("simulation_metadata", JValue.obj
    [("name", JValue.str "sim"), ("num_episodes", JValue.int 3),
     ("num_steps_per_episode", JValue.int 2)])]

/-- Concrete engine: the config above with token `TOKEN`, one hour per
step, the two state paths, and color visualization. -/
def gpGood : GeoPlot :=
  { config := configGood, cesium_token := JValue.str "TOKEN",
    step_time := JValue.int 3600,
    entity_position := JValue.str "agents/citizens/coordinates",
    entity_property := JValue.str "agents/citizens/money_spent",
    visualization_type := JValue.str "color" }

/-- Concrete two-episode trajectory (one snapshot per episode). -/
def trajGood : List (List JValue) := [[s0], [s1]]

/-- A trajectory that differs from `trajGood` in every snapshot the
extraction loop never consumes: an extra earlier snapshot in episode 0
and a completely different final episode. -/
def trajB : List (List JValue) := [[JValue.obj [], s0], [JValue.str "junk"]]

/-- The feature collections produced by the concrete scenario: one
agent, one feature (the zip truncates the 6 timestamps to the single
value row), geometry [2, 1] (longitude first). -/
def gjGood : List (List Feature) :=
  [[{ coordinates := [2, 1], value := 10, time := 0 }]]

/-- The serialized geodata document of the concrete scenario. -/
def dataGood : String := jsonDumpCollections gjGood

/-- The full render output of the concrete scenario. -/
def outGood : RenderOutput :=
  { geodata_path := "sim.geojson", geoplot_path := "sim.html",
    coords := [[1, 2]], values := [[10]],
    timestamps := [0, 3600, 7200, 10800, 14400, 18000],
    geojsons := gjGood, geojson_file := dataGood,
    mapping := renderMapping gpGood 0 18000 dataGood,
    html_file := substitutedTemplate gpGood 0 18000 }

/-- The concrete engine with an adversarial access token that is itself
a placeholder token. -/
def gpDollar : GeoPlot :=
  { config := configGood, cesium_token := JValue.str "$startTime",
    step_time := JValue.int 3600,
    entity_position := JValue.str "agents/citizens/coordinates",
    entity_property := JValue.str "agents/citizens/money_spent",
    visualization_type := JValue.str "color" }

/-- The render output for the adversarial token. -/
def outDollar : RenderOutput :=
  { geodata_path := "sim.geojson", geoplot_path := "sim.html",
    coords := [[1, 2]], values := [[10]],
    timestamps := [0, 3600, 7200, 10800, 14400, 18000],
    geojsons := gjGood, geojson_file := dataGood,
    mapping := renderMapping gpDollar 0 18000 dataGood,
    html_file := substitutedTemplate gpDollar 0 18000 }

/-- An engine whose config lacks `simulation_metadata` entirely. -/
def gpNoMeta : GeoPlot :=
  { config := JValue.obj [], cesium_token := JValue.str "",
    step_time := JValue.int 1, entity_position := JValue.str "",
    entity_property := JValue.str "", visualization_type := JValue.str "" }

/-- An engine whose metadata lacks `name`. -/
def gpNoName : GeoPlot :=
  { gpNoMeta with config := JValue.obj [("simulation_metadata", JValue.obj [])] }

/-- An engine whose metadata lacks `num_episodes`. -/
def gpNoEpisodes : GeoPlot :=
  { gpNoMeta with config := JValue.obj [("simulation_metadata",
      JValue.obj [("name", JValue.str "x")])] }

/-- An engine whose metadata lacks `num_steps_per_episode`. -/
def gpNoSteps : GeoPlot :=
  { gpNoMeta with config := JValue.obj [("simulation_metadata",
      JValue.obj [("name", JValue.str "x"), ("num_episodes", JValue.int 1)])] }


/-- Lemma tP0_noDollar: no dollar occurs in the piece. -/
theorem tP0_noDollar : '$' ∉ tP0 := by
  simp only [tP0]
  exact List.not_mem_append (by decide)
    (List.not_mem_append (by decide)
    (List.not_mem_append (by decide)
    (List.not_mem_append (by decide)
    (List.not_mem_append (by decide)
    (List.not_mem_append (by decide)
    (List.not_mem_append (by decide)
    (List.not_mem_append (by decide)
    (List.not_mem_append (by decide)
    (List.not_mem_append (by decide)
    (by decide))))))))))

/-- Lemma tP1b_noDollar: no dollar occurs in the piece. -/
theorem tP1b_noDollar : '$' ∉ tP1b := by
  simp only [tP1b]
  exact List.not_mem_append (by decide)
    (List.not_mem_append (by decide)
    (List.not_mem_append (by decide)
    (List.not_mem_append (by decide)
    (List.not_mem_append (by decide)
    (List.not_mem_append (by decide)
    (by decide))))))

/-- Lemma tP2b_noDollar: no dollar occurs in the piece. -/
theorem tP2b_noDollar : '$' ∉ tP2b := by
  simp only [tP2b]
  exact List.not_mem_append (by decide)
    (List.not_mem_append (by decide)
    (List.not_mem_append (by decide)
    (List.not_mem_append (by decide)
    (List.not_mem_append (by decide)
    (List.not_mem_append (by decide)
    (List.not_mem_append (by decide)
    (List.not_mem_append (by decide)
    (List.not_mem_append (by decide)
    (List.not_mem_append (by decide)
    (List.not_mem_append (by decide)
    (List.not_mem_append (by decide)
    (List.not_mem_append (by decide)
    (List.not_mem_append (by decide)
    (List.not_mem_append (by decide)
    (List.not_mem_append (by decide)
    (List.not_mem_append (by decide)
    (List.not_mem_append (by decide)
    (List.not_mem_append (by decide)
    (List.not_mem_append (by decide)
    (List.not_mem_append (by decide)
    (List.not_mem_append (by decide)
    (List.not_mem_append (by decide)
    (List.not_mem_append (by decide)
    (List.not_mem_append (by decide)
    (by decide)))))))))))))))))))))))))

/-- Lemma tP3b_noDollar: no dollar occurs in the piece. -/
theorem tP3b_noDollar : '$' ∉ tP3b := by
  simp only [tP3b]
  exact List.not_mem_append (by decide)
    (List.not_mem_append (by decide)
    (List.not_mem_append (by decide)
    (List.not_mem_append (by decide)
    (List.not_mem_append (by decide)
    (List.not_mem_append (by decide)
    (List.not_mem_append (by decide)
    (by decide)))))))

/-- Lemma tP4b_noDollar: no dollar occurs in the piece. -/
theorem tP4b_noDollar : '$' ∉ tP4b := by
  simp only [tP4b]
  exact List.not_mem_append (by decide)
    (List.not_mem_append (by decide)
    (List.not_mem_append (by decide)
    (List.not_mem_append (by decide)
    (by decide))))

/-- Lemma tP5b_noDollar: no dollar occurs in the piece. -/
theorem tP5b_noDollar : '$' ∉ tP5b := by
  simp only [tP5b]
  exact by decide

/-- Lemma tP6b_noDollar: no dollar occurs in the piece. -/
theorem tP6b_noDollar : '$' ∉ tP6b := by
  simp only [tP6b]
  exact List.not_mem_append (by decide)
    (List.not_mem_append (by decide)
    (List.not_mem_append (by decide)
    (List.not_mem_append (by decide)
    (List.not_mem_append (by decide)
    (List.not_mem_append (by decide)
    (List.not_mem_append (by decide)
    (List.not_mem_append (by decide)
    (by decide))))))))

theorem substGo_plain_append (m : List (String × String)) :
    ∀ p : List Char, '$' ∉ p → ∀ acc rest,
      substGo m SubstMode.plain acc (p ++ rest) =
        substGo m SubstMode.plain (List.reverseAux p acc) rest := by
  intro p
  induction p with
  | nil => intro _ acc rest; rfl
  | cons c p' ih =>
    intro hd acc rest
    have hc : c ≠ '$' := fun h => hd (by simp [h])
    rw [List.cons_append]
    show substGo m SubstMode.plain acc (c :: (p' ++ rest)) = _
    rw [substGo, if_neg hc]
    exact ih (fun h => hd (by simp [h])) (c :: acc) rest

theorem substGo_ident_run (m : List (String × String)) :
    ∀ idTail : List Char, ∀ identRev acc : List Char, ∀ b : Char, ∀ rest : List Char,
      (∀ c ∈ idTail, isIdentChar c = true) →
      isIdentChar b = false → b ≠ '$' →
      substGo m (SubstMode.ident identRev) acc (idTail ++ b :: rest) =
        match m.lookup (String.mk (identRev.reverse ++ idTail)) with
        | some v => substGo m SubstMode.plain (b :: List.reverseAux v.toList acc) rest
        | none => Except.error (RenderError.keyError (String.mk (identRev.reverse ++ idTail))) := by
  intro idTail
  induction idTail with
  | nil =>
    intro identRev acc b rest _ hb1 hb2
    rw [List.nil_append, substGo, if_neg (by simp [hb1])]
    simp only [List.append_nil]
    cases hl : m.lookup (String.mk identRev.reverse) with
    | some v => simp [if_neg hb2]
    | none => simp
  | cons d ds ih =>
    intro identRev acc b rest hall hb1 hb2
    have hdch : isIdentChar d = true := hall d (by simp)
    rw [List.cons_append, substGo, if_pos hdch]
    rw [ih (d :: identRev) acc b rest (fun c hcm => hall c (by simp [hcm])) hb1 hb2]
    simp [List.reverse_cons, List.append_assoc]

theorem substGo_placeholder (m : List (String × String)) (identS v : String)
    (b : Char) (acc rest : List Char)
    (hne : identS.toList ≠ [])
    (hstart : isIdentStart (identS.toList.headD 'a') = true)
    (hall : ∀ c ∈ identS.toList, isIdentChar c = true)
    (hb1 : isIdentChar b = false) (hb2 : b ≠ '$')
    (hlook : m.lookup identS = some v) :
    substGo m SubstMode.plain acc ('$' :: (identS.toList ++ b :: rest)) =
      substGo m SubstMode.plain (b :: List.reverseAux v.toList acc) rest := by
  rw [substGo, if_pos rfl]
  cases hI : identS.toList with
  | nil => exact absurd hI hne
  | cons c cs =>
    rw [hI] at hstart
    have hcstart : isIdentStart c = true := by simpa using hstart
    have hcne : c ≠ '$' := by
      intro h; rw [h] at hcstart; exact absurd hcstart (by decide)
    have hcnb : c ≠ '\x7b' := by
      intro h; rw [h] at hcstart; exact absurd hcstart (by decide)
    rw [List.cons_append, substGo, if_neg hcne, if_neg hcnb, if_pos hcstart]
    rw [substGo_ident_run m cs [c] acc b rest
      (fun d hd => hall d (hI ▸ List.mem_cons_of_mem c hd)) hb1 hb2]
    have : String.mk ([c].reverse ++ cs) = identS := by
      simp [← hI]
    rw [this, hlook]

set_option maxRecDepth 8000 in
theorem substitute_renderMapping (g : GeoPlot) (t0 tN : ℚ) (d : String) :
    substitute (renderMapping g t0 tN d) geoplot_template =
      Except.ok (substitutedTemplate g t0 tN) := by
  have l1 : (renderMapping g t0 tN d).lookup "accessToken"
      = some (pyStr g.cesium_token) := rfl
  have l2 : (renderMapping g t0 tN d).lookup "visualType"
      = some (pyStr g.visualization_type) := rfl
  have l3 : (renderMapping g t0 tN d).lookup "startTime" = some (isoformat t0) := rfl
  have l4 : (renderMapping g t0 tN d).lookup "stopTime" = some (isoformat tN) := rfl
  simp only [substitute, geoplot_template]
  have ht : (String.mk templateChars).toList = templateChars := rfl
  rw [ht, templateChars]
  rw [substGo_plain_append _ tP0 tP0_noDollar]
  simp only [ph, tP1, tP2, tP3, tP4, tP5, tP6, List.cons_append]
  rw [substGo_placeholder _ "accessToken" _ '\x27' _ _ (by decide) (by decide)
    (by decide) (by decide) (by decide) l1]
  rw [substGo_plain_append _ tP1b tP1b_noDollar]
  rw [substGo_placeholder _ "visualType" _ '\x27' _ _ (by decide) (by decide)
    (by decide) (by decide) (by decide) l2]
  rw [substGo_plain_append _ tP2b tP2b_noDollar]
  rw [substGo_placeholder _ "visualType" _ '\x27' _ _ (by decide) (by decide)
    (by decide) (by decide) (by decide) l2]
  rw [substGo_plain_append _ tP3b tP3b_noDollar]
  rw [substGo_placeholder _ "visualType" _ '\x27' _ _ (by decide) (by decide)
    (by decide) (by decide) (by decide) l2]
  rw [substGo_plain_append _ tP4b tP4b_noDollar]
  rw [substGo_placeholder _ "startTime" _ '\x27' _ _ (by decide) (by decide)
    (by decide) (by decide) (by decide) l3]
  rw [substGo_plain_append _ tP5b tP5b_noDollar]
  rw [substGo_placeholder _ "stopTime" _ '\x27' _ _ (by decide) (by decide)
    (by decide) (by decide) (by decide) l4]
  rw [show tP6b = tP6b ++ [] from (List.append_nil tP6b).symm]
  rw [substGo_plain_append _ tP6b tP6b_noDollar]
  rw [substGo]
  simp only [Except.map]
  congr 1
  simp [substitutedTemplate, tP1, tP2, tP3, tP4, tP5, tP6,
    List.reverseAux_eq, List.append_assoc]

theorem bind_ok {α β : Type} {x : Except RenderError α} {f : α → Except RenderError β}
    {b : β} (h : x >>= f = Except.ok b) : ∃ a, x = Except.ok a ∧ f a = Except.ok b := by
  cases x with
  | ok a => exact ⟨a, rfl, by simpa [Bind.bind, Except.bind] using h⟩
  | error e => simp [Bind.bind, Except.bind] at h

theorem ofOpt_ok {α : Type} {e : RenderError} {o : Option α} {a : α}
    (h : ofOpt e o = Except.ok a) : o = some a := by
  cases o with
  | some b => simpa [ofOpt] using h
  | none => simp [ofOpt] at h

theorem mapE_length {α β : Type} (f : α → Except RenderError β) :
    ∀ l r, mapE f l = Except.ok r → r.length = l.length := by
  intro l
  induction l with
  | nil => intro r h; simp [mapE] at h; simp [← h]
  | cons a as ih =>
    intro r h
    simp only [mapE] at h
    cases hfa : f a with
    | ok b =>
      rw [hfa] at h
      cases hrest : mapE f as with
      | ok bs =>
        rw [hrest] at h
        simp at h
        subst h
        simp [ih bs hrest]
      | error e => rw [hrest] at h; simp at h
    | error e => rw [hfa] at h; simp at h

theorem mapE_mem {α β : Type} (f : α → Except RenderError β) :
    ∀ l r, mapE f l = Except.ok r → ∀ y ∈ r, ∃ x ∈ l, f x = Except.ok y := by
  intro l
  induction l with
  | nil => intro r h; simp [mapE] at h; simp [h]
  | cons a as ih =>
    intro r h y hy
    simp only [mapE] at h
    cases hfa : f a with
    | ok b =>
      rw [hfa] at h
      cases hrest : mapE f as with
      | ok bs =>
        rw [hrest] at h
        simp at h
        subst h
        rcases List.mem_cons.mp hy with hyb | hybs
        · exact ⟨a, by simp, by rw [hfa, hyb]⟩
        · obtain ⟨x, hx, hfx⟩ := ih bs hrest y hybs
          exact ⟨x, by simp [hx], hfx⟩
      | error e => rw [hrest] at h; simp at h
    | error e => rw [hfa] at h; simp at h

theorem mapE_get? {α β : Type} (f : α → Except RenderError β) :
    ∀ (l : List α) (r : List β), mapE f l = Except.ok r → ∀ (i : ℕ) (y : β),
      r[i]? = some y → ∃ x, l[i]? = some x ∧ f x = Except.ok y := by
  intro l
  induction l with
  | nil => intro r h; simp [mapE] at h; simp [h]
  | cons a as ih =>
    intro r h i y hy
    simp only [mapE] at h
    cases hfa : f a with
    | ok b =>
      rw [hfa] at h
      cases hrest : mapE f as with
      | ok bs =>
        rw [hrest] at h
        simp at h
        subst h
        cases i with
        | zero =>
          simp at hy
          exact ⟨a, by simp, by rw [hfa, hy]⟩
        | succ j =>
          simp at hy
          obtain ⟨x, hx, hfx⟩ := ih bs hrest j y hy
          exact ⟨x, by simpa using hx, hfx⟩
        
      | error e => rw [hrest] at h; simp at h
    | error e => rw [hfa] at h; simp at h

theorem extractStep_ok_elim (p q : JValue) (acc : List (List ℚ) × List (List ℚ))
    (fs : Option JValue) (r : List (List ℚ) × List (List ℚ))
    (h : extractStep p q acc fs = Except.ok r) :
    ∃ s pos cj M prop vj v, fs = some s ∧ strOfE p = Except.ok pos ∧
      read_var s pos = some cj ∧ jToMatrix cj = some M ∧
      strOfE q = Except.ok prop ∧ read_var s prop = some vj ∧
      npFlatten vj = some v ∧ r = (M, acc.2 ++ [v]) := by
  simp only [extractStep] at h
  obtain ⟨s, hs, h⟩ := bind_ok h
  obtain ⟨pos, hpos, h⟩ := bind_ok h
  obtain ⟨cj, hcj, h⟩ := bind_ok h
  obtain ⟨M, hM, h⟩ := bind_ok h
  obtain ⟨prop, hprop, h⟩ := bind_ok h
  obtain ⟨vj, hvj, h⟩ := bind_ok h
  obtain ⟨v, hv, h⟩ := bind_ok h
  refine ⟨s, pos, cj, M, prop, vj, v, ofOpt_ok hs, hpos, ofOpt_ok hcj,
    ofOpt_ok hM, hprop, ofOpt_ok hvj, ofOpt_ok hv, ?_⟩
  simpa using h.symm

theorem foldE_append {α β : Type} (f : β → α → Except RenderError β) :
    ∀ (l : List α) (a : α) (acc : β) (r : β),
      foldE f acc (l ++ [a]) = Except.ok r →
      ∃ b, foldE f acc l = Except.ok b ∧ f b a = Except.ok r := by
  intro l
  induction l with
  | nil =>
    intro a acc r h
    simp only [List.nil_append, foldE] at h
    cases hfa : f acc a with
    | ok b => rw [hfa] at h; simp [foldE] at h; exact ⟨acc, rfl, by rw [hfa, h]⟩
    | error e => rw [hfa] at h; simp at h
  | cons x xs ih =>
    intro a acc r h
    simp only [List.cons_append, foldE] at h
    cases hfx : f acc x with
    | ok b =>
      rw [hfx] at h
      obtain ⟨b2, hb2, hfb2⟩ := ih a b r h
      exact ⟨b2, by simp [foldE, hfx, hb2], hfb2⟩
    | error e => rw [hfx] at h; simp at h

theorem foldE_extract_values {p q : JValue} :
    ∀ (l : List (Option JValue)) (acc : List (List ℚ) × List (List ℚ)) r,
      foldE (extractStep p q) acc l = Except.ok r →
      r.2.length = acc.2.length + l.length := by
  intro l
  induction l with
  | nil =>
    intro acc r h
    simp only [foldE] at h
    simp at h
    simp [← h]
  | cons x xs ih =>
    intro acc r h
    simp only [foldE] at h
    cases hfx : extractStep p q acc x with
    | ok b =>
      rw [hfx] at h
      have hlen := ih b r h
      obtain ⟨s, pos, cj, M, prop, vj, v, _, _, _, _, _, _, _, hb⟩ :=
        extractStep_ok_elim p q acc x b hfx
      rw [hb] at hlen
      simp at hlen
      rw [hlen]
      simp [List.length_cons]
      omega
    | error e => rw [hfx] at h; simp at h

theorem finalStates_length (traj : List (List JValue)) :
    (finalStates traj).length = traj.length - 1 := by
  simp [finalStates]

theorem finalStates_congr (traj traj' : List (List JValue))
    (hlen : traj'.length = traj.length)
    (hlast : ∀ i, i < traj.length - 1 →
      (traj'.getD i []).getLast? = (traj.getD i []).getLast?) :
    finalStates traj' = finalStates traj := by
  simp only [finalStates, hlen]
  exact List.map_congr_left (fun i hi => hlast i (List.mem_range.mp hi))

theorem timeline_length (s t : ℚ) (n : ℕ) : (timeline s t n).length = n := by
  rw [timeline, List.length_map, List.length_range]

theorem timeline_getElem? (s t : ℚ) (n i : ℕ) (hi : i < n) :
    (timeline s t n)[i]? = some (s + (i : ℚ) * t) := by
  rw [timeline, List.getElem?_map, List.getElem?_range hi]
  rfl

theorem render_ok_elim (g : GeoPlot) (traj : List (List JValue)) (start : ℚ)
    (out : RenderOutput) (h : GeoPlot.render g traj start = Except.ok out) :
    ∃ md name cv ne E ns S st gj t0 tN,
      dictGet g.config "simulation_metadata" = Except.ok md ∧
      dictGet md "name" = Except.ok name ∧
      extract g.entity_position g.entity_property traj = Except.ok cv ∧
      dictGet md "num_episodes" = Except.ok ne ∧ toIntE ne = Except.ok E ∧
      dictGet md "num_steps_per_episode" = Except.ok ns ∧ toIntE ns = Except.ok S ∧
      toRatE g.step_time = Except.ok st ∧
      buildGeojsons cv.1 (timeline start st (E * S).toNat) cv.2 = Except.ok gj ∧
      (timeline start st (E * S).toNat).head? = some t0 ∧
      (timeline start st (E * S).toNat).getLast? = some tN ∧
      out = { geodata_path := pyStr name ++ ".geojson",
              geoplot_path := pyStr name ++ ".html",
              coords := cv.1, values := cv.2,
              timestamps := timeline start st (E * S).toNat,
              geojsons := gj, geojson_file := jsonDumpCollections gj,
              mapping := renderMapping g t0 tN (jsonDumpCollections gj),
              html_file := substitutedTemplate g t0 tN } := by
  simp only [GeoPlot.render] at h
  obtain ⟨md, hmd, h⟩ := bind_ok h
  obtain ⟨name, hname, h⟩ := bind_ok h
  obtain ⟨cv, hcv, h⟩ := bind_ok h
  obtain ⟨md2, hmd2, h⟩ := bind_ok h
  obtain ⟨ne, hne, h⟩ := bind_ok h
  obtain ⟨E, hE, h⟩ := bind_ok h
  obtain ⟨md3, hmd3, h⟩ := bind_ok h
  obtain ⟨ns, hns, h⟩ := bind_ok h
  obtain ⟨S, hS, h⟩ := bind_ok h
  obtain ⟨st, hst, h⟩ := bind_ok h
  obtain ⟨gj, hgj, h⟩ := bind_ok h
  obtain ⟨t0, ht0, h⟩ := bind_ok h
  obtain ⟨tN, htN, h⟩ := bind_ok h
  obtain ⟨html, hhtml, h⟩ := bind_ok h
  rw [hmd] at hmd2 hmd3
  have hmd2' : md2 = md := by simpa using hmd2.symm
  have hmd3' : md3 = md := by simpa using hmd3.symm
  rw [hmd2'] at hne
  rw [hmd3'] at hns
  rw [substitute_renderMapping g t0 tN (jsonDumpCollections gj)] at hhtml
  have hhtml' : html = substitutedTemplate g t0 tN := by simpa using hhtml.symm
  subst hhtml'
  refine ⟨md, name, cv, ne, E, ns, S, st, gj, t0, tN, hmd, hname, hcv, hne, hE,
    hns, hS, hst, hgj, ofOpt_ok ht0, ofOpt_ok htN, ?_⟩
  simpa using h.symm

theorem render_ok_intro (g : GeoPlot) (traj : List (List JValue)) (start : ℚ)
    (md name cv st gj t0 tN) (E S : ℤ)
    (h1 : dictGet g.config "simulation_metadata" = Except.ok md)
    (h2 : dictGet md "name" = Except.ok name)
    (h3 : extract g.entity_position g.entity_property traj = Except.ok cv)
    (h4 : dictGet md "num_episodes" = Except.ok (JValue.int E))
    (h5 : dictGet md "num_steps_per_episode" = Except.ok (JValue.int S))
    (h6 : toRatE g.step_time = Except.ok st)
    (h7 : buildGeojsons cv.1 (timeline start st (E * S).toNat) cv.2 = Except.ok gj)
    (h8 : (timeline start st (E * S).toNat).head? = some t0)
    (h9 : (timeline start st (E * S).toNat).getLast? = some tN) :
    GeoPlot.render g traj start = Except.ok
      { geodata_path := pyStr name ++ ".geojson",
        geoplot_path := pyStr name ++ ".html",
        coords := cv.1, values := cv.2,
        timestamps := timeline start st (E * S).toNat,
        geojsons := gj, geojson_file := jsonDumpCollections gj,
        mapping := renderMapping g t0 tN (jsonDumpCollections gj),
        html_file := substitutedTemplate g t0 tN } := by
  simp only [GeoPlot.render, h1, h2, h3, h4, h5, h6, toIntE, h7, h8, h9, ofOpt,
    substitute_renderMapping, Bind.bind, Except.bind]

theorem timelineGood_eq : timeline 0 3600 ((3 : ℤ) * 2).toNat
    = [0, 3600, 7200, 10800, 14400, 18000] := by
  rw [show ((3 : ℤ) * 2).toNat = 6 from rfl]
  norm_num [timeline, List.range_succ]

theorem renderGood_eq : GeoPlot.render gpGood trajGood 0 = Except.ok outGood := by
  have h := render_ok_intro gpGood trajGood 0
    (JValue.obj [("name", JValue.str "sim"), ("num_episodes", JValue.int 3),
      ("num_steps_per_episode", JValue.int 2)])
    (JValue.str "sim") ([[1, 2]], [[10]]) 3600 gjGood 0 18000 3 2
    rfl rfl rfl rfl rfl rfl
    (by rw [timelineGood_eq]; rfl)
    (by rw [timelineGood_eq]; rfl)
    (by rw [timelineGood_eq]; rfl)
  rw [timelineGood_eq] at h
  exact h

theorem renderDollar_eq : GeoPlot.render gpDollar trajGood 0 = Except.ok outDollar := by
  have h := render_ok_intro gpDollar trajGood 0
    (JValue.obj [("name", JValue.str "sim"), ("num_episodes", JValue.int 3),
      ("num_steps_per_episode", JValue.int 2)])
    (JValue.str "sim") ([[1, 2]], [[10]]) 3600 gjGood 0 18000 3 2
    rfl rfl rfl rfl rfl rfl
    (by rw [timelineGood_eq]; rfl)
    (by rw [timelineGood_eq]; rfl)
    (by rw [timelineGood_eq]; rfl)
  rw [timelineGood_eq] at h
  exact h

/-- Claim C3: for every config with `num_episodes = E` and
`num_steps_per_episode = S` and every positive step time `t`, the
timeline generated by a successful render has exactly `E * S` entries,
entry `i` equals the wall-clock start plus `i * t` seconds, and
consecutive entries are `t` seconds apart. -/
theorem C3_timeline_spacing (g : GeoPlot) (traj : List (List JValue)) (start t : ℚ)
    (E S : ℕ) (nm : JValue) (out : RenderOutput)
    (hcfg : g.config = JValue.obj [("simulation_metadata", JValue.obj
      [("name", nm), ("num_episodes", JValue.int (E : ℤ)),
       ("num_steps_per_episode", JValue.int (S : ℤ))])])
    (hst : toRatE g.step_time = Except.ok t) (hpos : 0 < t)
    (h : GeoPlot.render g traj start = Except.ok out) :
    out.timestamps.length = E * S ∧
    (∀ i : ℕ, i < E * S → out.timestamps[i]? = some (start + (i : ℚ) * t)) ∧
    (∀ i : ℕ, i + 1 < E * S →
      out.timestamps[i + 1]?.getD 0 - out.timestamps[i]?.getD 0 = t) := by
  obtain ⟨md, name, cv, ne, E', ns, S', st, gj, t0, tN, hmd, hname, hcv, hne, hE',
    hns, hS', hst', hgj, ht0, htN, hout⟩ := render_ok_elim g traj start out h
  rw [hcfg] at hmd
  have hmdv : md = JValue.obj [("name", nm), ("num_episodes", JValue.int (E : ℤ)),
      ("num_steps_per_episode", JValue.int (S : ℤ))] := by
    simpa [dictGet, ofOpt, List.lookup] using hmd.symm
  subst hmdv
  have hnev : ne = JValue.int (E : ℤ) := by
    simpa [dictGet, ofOpt, List.lookup] using hne.symm
  subst hnev
  have hnsv : ns = JValue.int (S : ℤ) := by
    simpa [dictGet, ofOpt, List.lookup] using hns.symm
  subst hnsv
  have hEv : E' = (E : ℤ) := by simpa [toIntE] using hE'.symm
  subst hEv
  have hSv : S' = (S : ℤ) := by simpa [toIntE] using hS'.symm
  subst hSv
  have hstv : st = t := by
    rw [hst] at hst'
    simpa using hst'.symm
  have htoNat : ((E : ℤ) * (S : ℤ)).toNat = E * S := by
    rw [← Int.natCast_mul, Int.toNat_natCast]
  rw [hout]
  simp only [htoNat, hstv]
  refine ⟨timeline_length start t (E * S), ?_, ?_⟩
  · intro i hi
    exact timeline_getElem? start t (E * S) i hi
  · intro i hi
    rw [timeline_getElem? start t (E * S) (i + 1) hi,
      timeline_getElem? start t (E * S) i (by omega)]
    simp only [Option.getD_some]
    push_cast
    ring

/-- Witness for C3 at the concrete scenario: 3 episodes, 2 steps per
episode, 3600 seconds per step give 6 timestamps 3600 apart. -/
theorem C3_timeline_spacing_witness :
    (gpGood.config = JValue.obj [("simulation_metadata", JValue.obj
      [("name", JValue.str "sim"), ("num_episodes", JValue.int ((3 : ℕ) : ℤ)),
       ("num_steps_per_episode", JValue.int ((2 : ℕ) : ℤ))])]) ∧
    toRatE gpGood.step_time = Except.ok 3600 ∧ (0 : ℚ) < 3600 ∧
    GeoPlot.render gpGood trajGood 0 = Except.ok outGood ∧
    (outGood.timestamps.length = 3 * 2 ∧
     (∀ i : ℕ, i < 3 * 2 → outGood.timestamps[i]? = some (0 + (i : ℚ) * 3600)) ∧
     (∀ i : ℕ, i + 1 < 3 * 2 →
       outGood.timestamps[i + 1]?.getD 0 - outGood.timestamps[i]?.getD 0 = 3600)) :=
  ⟨rfl, rfl, by norm_num, renderGood_eq,
    C3_timeline_spacing gpGood trajGood 0 3600 3 2 (JValue.str "sim") outGood
      rfl rfl (by norm_num) renderGood_eq⟩

/-- Claim C2: the extraction loop visits exactly episode indices
0 .. n-2 and consumes only the final per-step snapshot of each; the
last episode is never consumed (render is unchanged by replacing it, or
by altering non-final snapshots), and `values` ends up with exactly
n - 1 entries. -/
theorem C2_extraction_loop (g : GeoPlot) (traj traj' : List (List JValue)) (start : ℚ) :
    (∀ out : RenderOutput, GeoPlot.render g traj start = Except.ok out →
      out.values.length = traj.length - 1) ∧
    (traj'.length = traj.length →
      (∀ i : ℕ, i < traj.length - 1 →
        (traj'.getD i []).getLast? = (traj.getD i []).getLast?) →
      GeoPlot.render g traj' start = GeoPlot.render g traj start) := by
  constructor
  · intro out h
    obtain ⟨md, name, cv, ne, E', ns, S', st, gj, t0, tN, hmd, hname, hcv, hne, hE',
      hns, hS', hst', hgj, ht0, htN, hout⟩ := render_ok_elim g traj start out h
    rw [hout]
    simp only [extract] at hcv
    have hlen := foldE_extract_values (finalStates traj) ([], []) cv hcv
    simpa [finalStates_length] using hlen
  · intro hlen hlast
    have hfs : finalStates traj' = finalStates traj := finalStates_congr _ _ hlen hlast
    simp only [GeoPlot.render, extract, hfs]

/-- Witness for C2: the concrete two-episode trajectory yields one
value row, and replacing everything the loop never reads (an extra
early snapshot in episode 0, the whole final episode) leaves render
unchanged. -/
theorem C2_extraction_loop_witness :
    (GeoPlot.render gpGood trajGood 0 = Except.ok outGood ∧
      outGood.values.length = trajGood.length - 1) ∧
    (trajB.length = trajGood.length ∧
      (∀ i : ℕ, i < trajGood.length - 1 →
        (trajB.getD i []).getLast? = (trajGood.getD i []).getLast?) ∧
      GeoPlot.render gpGood trajB 0 = GeoPlot.render gpGood trajGood 0) := by
  have hl : ∀ i : ℕ, i < trajGood.length - 1 →
      (trajB.getD i []).getLast? = (trajGood.getD i []).getLast? := by
    intro i hi
    have hi0 : i = 0 := by simpa [trajGood] using hi
    subst hi0
    rfl
  exact ⟨⟨renderGood_eq, (C2_extraction_loop gpGood trajGood trajB 0).1 outGood renderGood_eq⟩,
    rfl, hl, (C2_extraction_loop gpGood trajGood trajB 0).2 rfl hl⟩

/-- Claim C1 counterexample: in the 2-episode scenario where episode 0
resolves the coordinates path to [[1.0, 2.0]] and episode 1 resolves it
to [[3.0, 4.0]], the coordinate set used by render is [[1.0, 2.0]] and
NOT [[3.0, 4.0]] as the claim asserts: the loop bound
`range(len(trajectory) - 1)` makes episode 0 the last processed
episode. -/
theorem C1_counterexample :
    GeoPlot.render gpGood trajGood 0 = Except.ok outGood ∧
    (trajGood.getD 0 []).getLast? = some s0 ∧
    (trajGood.getD 1 []).getLast? = some s1 ∧
    gpGood.entity_position = JValue.str "agents/citizens/coordinates" ∧
    read_var s0 "agents/citizens/coordinates"
      = some (JValue.arr [JValue.arr [JValue.num 1, JValue.num 2]]) ∧
    read_var s1 "agents/citizens/coordinates"
      = some (JValue.arr [JValue.arr [JValue.num 3, JValue.num 4]]) ∧
    outGood.coords = [[1, 2]] ∧ outGood.coords ≠ [[(3 : ℚ), 4]] :=
  ⟨renderGood_eq, rfl, rfl, rfl, rfl, rfl, rfl, by simp [outGood]⟩

/-- Claim C1 as amended: for a trajectory with at least two episodes,
the coordinate set that a successful render uses is the one resolved
from the final snapshot of episode n-2 — the last episode the loop
processes, which is the second-to-last episode of the trajectory (in
the 2-episode scenario of the claim, [[1.0, 2.0]], episode 0). -/
theorem C1_amended (g : GeoPlot) (traj : List (List JValue)) (start : ℚ)
    (out : RenderOutput) (s cj : JValue) (M : List (List ℚ)) (pos : String)
    (hpos : g.entity_position = JValue.str pos)
    (hlen : 2 ≤ traj.length)
    (hs : (traj.getD (traj.length - 2) []).getLast? = some s)
    (hcj : read_var s pos = some cj)
    (hM : jToMatrix cj = some M)
    (h : GeoPlot.render g traj start = Except.ok out) :
    out.coords = M := by
  obtain ⟨md, name, cv, ne, E', ns, S', st, gj, t0, tN, hmd, hname, hcv, hne, hE',
    hns, hS', hst', hgj, ht0, htN, hout⟩ := render_ok_elim g traj start out h
  rw [hout]
  show cv.1 = M
  simp only [extract] at hcv
  have hsplit : finalStates traj =
      ((List.range (traj.length - 2)).map
        (fun i => (traj.getD i []).getLast?)) ++ [(traj.getD (traj.length - 2) []).getLast?] := by
    rw [finalStates, show traj.length - 1 = (traj.length - 2) + 1 from by omega,
      List.range_succ]
    simp
  rw [hsplit] at hcv
  obtain ⟨b, hb, hstep⟩ := foldE_append _ _ _ _ _ hcv
  obtain ⟨s', pos', cj', M', prop', vj', v', hfs, hpos', hcj', hM', _, _, _, hr⟩ :=
    extractStep_ok_elim _ _ _ _ _ hstep
  rw [hs] at hfs
  have hs' : s' = s := by simpa using hfs.symm
  subst hs'
  rw [hpos] at hpos'
  have hposv : pos' = pos := by simpa [strOfE] using hpos'.symm
  subst hposv
  rw [hcj] at hcj'
  have hcjv : cj' = cj := by simpa using hcj'.symm
  subst hcjv
  rw [hM] at hM'
  have hMv : M' = M := by simpa using hM'.symm
  subst hMv
  rw [hr]

/-- Witness for the amended C1 at the concrete scenario: the surviving
coordinate set is episode 0's [[1.0, 2.0]]. -/
theorem C1_amended_witness :
    gpGood.entity_position = JValue.str "agents/citizens/coordinates" ∧
    2 ≤ trajGood.length ∧
    (trajGood.getD (trajGood.length - 2) []).getLast? = some s0 ∧
    read_var s0 "agents/citizens/coordinates"
      = some (JValue.arr [JValue.arr [JValue.num 1, JValue.num 2]]) ∧
    jToMatrix (JValue.arr [JValue.arr [JValue.num 1, JValue.num 2]]) = some [[1, 2]] ∧
    GeoPlot.render gpGood trajGood 0 = Except.ok outGood ∧
    outGood.coords = [[1, 2]] :=
  ⟨rfl, by norm_num [trajGood], rfl, rfl, rfl, renderGood_eq,
    C1_amended gpGood trajGood 0 outGood s0
      (JValue.arr [JValue.arr [JValue.num 1, JValue.num 2]]) [[1, 2]]
      "agents/citizens/coordinates" rfl (by norm_num [trajGood]) rfl rfl rfl
      renderGood_eq⟩

/-- Helper: unpack the episode and step counts from the config shape. -/
theorem metadata_counts (E S : ℕ) (nm md ne ns : JValue) (E' S' : ℤ)
    (hmdv : md = JValue.obj [("name", nm), ("num_episodes", JValue.int (E : ℤ)),
      ("num_steps_per_episode", JValue.int (S : ℤ))])
    (hne : dictGet md "num_episodes" = Except.ok ne) (hE' : toIntE ne = Except.ok E')
    (hns : dictGet md "num_steps_per_episode" = Except.ok ns)
    (hS' : toIntE ns = Except.ok S') :
    (E' * S').toNat = E * S := by
  subst hmdv
  have hnev : ne = JValue.int (E : ℤ) := by
    simpa [dictGet, ofOpt, List.lookup] using hne.symm
  subst hnev
  have hnsv : ns = JValue.int (S : ℤ) := by
    simpa [dictGet, ofOpt, List.lookup] using hns.symm
  subst hnsv
  have hEv : E' = (E : ℤ) := by simpa [toIntE] using hE'.symm
  have hSv : S' = (S : ℤ) := by simpa [toIntE] using hS'.symm
  subst hEv
  subst hSv
  rw [← Int.natCast_mul, Int.toNat_natCast]

/-- Claim C4: every feature collection in the written geodata document
has exactly `min (len timeline) (len values)` features, where the
timeline has `E * S` entries and `values` has `len(trajectory) - 1`
entries: the zip silently truncates to the shorter sequence. -/
theorem C4_truncating_zip (g : GeoPlot) (traj : List (List JValue)) (start : ℚ)
    (E S : ℕ) (nm : JValue) (out : RenderOutput)
    (hcfg : g.config = JValue.obj [("simulation_metadata", JValue.obj
      [("name", nm), ("num_episodes", JValue.int (E : ℤ)),
       ("num_steps_per_episode", JValue.int (S : ℤ))])])
    (h : GeoPlot.render g traj start = Except.ok out) :
    out.geojson_file = jsonDumpCollections out.geojsons ∧
    out.timestamps.length = E * S ∧
    out.values.length = traj.length - 1 ∧
    ∀ fc ∈ out.geojsons, fc.length = min (E * S) (traj.length - 1) := by
  obtain ⟨md, name, cv, ne, E', ns, S', st, gj, t0, tN, hmd, hname, hcv, hne, hE',
    hns, hS', hst', hgj, ht0, htN, hout⟩ := render_ok_elim g traj start out h
  rw [hcfg] at hmd
  have hmdv : md = JValue.obj [("name", nm), ("num_episodes", JValue.int (E : ℤ)),
      ("num_steps_per_episode", JValue.int (S : ℤ))] := by
    simpa [dictGet, ofOpt, List.lookup] using hmd.symm
  have htoNat := metadata_counts E S nm md ne ns E' S' hmdv hne hE' hns hS'
  have hvals : cv.2.length = traj.length - 1 := by
    simp only [extract] at hcv
    simpa [finalStates_length] using foldE_extract_values (finalStates traj) ([], []) cv hcv
  rw [hout]
  refine ⟨rfl, by simp [htoNat, timeline_length], hvals, ?_⟩
  intro fc hfc
  simp only [buildGeojsons] at hgj
  obtain ⟨x, _, hbc⟩ := mapE_mem _ _ _ hgj fc hfc
  simp only [buildCollection] at hbc
  have hlen := mapE_length _ _ _ hbc
  rw [hlen, List.length_zip, timeline_length, htoNat, hvals]

/-- Witness for C4: in the concrete scenario the timeline has 6 entries
but only 1 value row, so every collection is truncated to
min 6 1 = 1 feature. -/
theorem C4_truncating_zip_witness :
    (gpGood.config = JValue.obj [("simulation_metadata", JValue.obj
      [("name", JValue.str "sim"), ("num_episodes", JValue.int ((3 : ℕ) : ℤ)),
       ("num_steps_per_episode", JValue.int ((2 : ℕ) : ℤ))])]) ∧
    GeoPlot.render gpGood trajGood 0 = Except.ok outGood ∧
    (outGood.geojson_file = jsonDumpCollections outGood.geojsons ∧
     outGood.timestamps.length = 3 * 2 ∧
     outGood.values.length = trajGood.length - 1 ∧
     ∀ fc ∈ outGood.geojsons, fc.length = min (3 * 2) (trajGood.length - 1)) :=
  ⟨rfl, renderGood_eq,
    C4_truncating_zip gpGood trajGood 0 3 2 (JValue.str "sim") outGood rfl renderGood_eq⟩

/-- Helper: a successfully built feature carries geometry
[coord[1], coord[0]], the value at the agent index, and the timestamp. -/
theorem buildFeature_ok_elim (idx : ℕ) (coord : List ℚ) (time : ℚ) (vl : List ℚ)
    (f : Feature) (h : buildFeature idx coord time vl = Except.ok f) :
    ∃ c1 c0 v, coord.get? 1 = some c1 ∧ coord.get? 0 = some c0 ∧
      vl.get? idx = some v ∧ f = { coordinates := [c1, c0], value := v, time := time } := by
  simp only [buildFeature] at h
  obtain ⟨c1, h1, h⟩ := bind_ok h
  obtain ⟨c0, h0, h⟩ := bind_ok h
  obtain ⟨v, hv, h⟩ := bind_ok h
  exact ⟨c1, c0, v, ofOpt_ok h1, ofOpt_ok h0, ofOpt_ok hv, by simpa using h.symm⟩

/-- Helper: indexing Python enumerate. -/
theorem enumFrom_getElem? {α : Type} :
    ∀ (l : List α) (k i : ℕ), (enumFrom k l)[i]? = l[i]?.map (fun a => (k + i, a)) := by
  intro l
  induction l with
  | nil => intro k i; simp [enumFrom]
  | cons a as ih =>
    intro k i
    cases i with
    | zero => simp [enumFrom]
    | succ j =>
      simp only [enumFrom, List.getElem?_cons_succ, ih (k + 1) j]
      cases as[j]? with
      | none => rfl
      | some x =>
        have hk : k + 1 + j = k + (j + 1) := by omega
        simp [hk]

/-- Claim C5: whenever the extracted per-agent coordinate pair at index
`i` is `[a, b]` (stored [lat, lon]), every feature of the i-th emitted
collection has geometry coordinates exactly `[b, a]` — the swapped pair
in [longitude, latitude] order. -/
theorem C5_geometry_swap (g : GeoPlot) (traj : List (List JValue)) (start : ℚ)
    (out : RenderOutput) (i : ℕ) (a b : ℚ) (fc : List Feature)
    (h : GeoPlot.render g traj start = Except.ok out)
    (hc : out.coords[i]? = some [a, b])
    (hfc : out.geojsons[i]? = some fc) :
    ∀ f ∈ fc, f.coordinates = [b, a] := by
  obtain ⟨md, name, cv, ne, E', ns, S', st, gj, t0, tN, hmd, hname, hcv, hne, hE',
    hns, hS', hst', hgj, ht0, htN, hout⟩ := render_ok_elim g traj start out h
  rw [hout] at hc hfc
  simp only [buildGeojsons] at hgj
  obtain ⟨x, hx, hbc⟩ := mapE_get? _ _ _ hgj i fc hfc
  rw [enumFrom_getElem?, hc] at hx
  have hxv : x = (i, [a, b]) := by simpa using hx.symm
  subst hxv
  intro f hf
  simp only [buildCollection] at hbc
  obtain ⟨p, _, hbf⟩ := mapE_mem _ _ _ hbc f hf
  obtain ⟨c1, c0, v, h1, h0, _, hfv⟩ := buildFeature_ok_elim _ _ _ _ _ hbf
  have hc1 : c1 = b := by simpa using h1.symm
  have hc0 : c0 = a := by simpa using h0.symm
  rw [hfv, hc1, hc0]

/-- Witness for C5 at the concrete scenario: the stored pair [1, 2]
appears in every feature of collection 0 as [2, 1]. -/
theorem C5_geometry_swap_witness :
    GeoPlot.render gpGood trajGood 0 = Except.ok outGood ∧
    outGood.coords[0]? = some [1, 2] ∧
    outGood.geojsons[0]? = some [{ coordinates := [2, 1], value := 10, time := 0 }] ∧
    (∀ f ∈ [({ coordinates := [2, 1], value := 10, time := 0 } : Feature)],
      f.coordinates = [(2 : ℚ), 1]) :=
  ⟨renderGood_eq, rfl, rfl,
    C5_geometry_swap gpGood trajGood 0 outGood 0 1 2
      [{ coordinates := [2, 1], value := 10, time := 0 }] renderGood_eq rfl rfl⟩

/-- Claim C10: within one emitted feature collection every feature
carries the identical geometry coordinate pair — an agent's position
does not vary across timestamps. -/
theorem C10_constant_geometry (g : GeoPlot) (traj : List (List JValue)) (start : ℚ)
    (out : RenderOutput) (fc : List Feature)
    (h : GeoPlot.render g traj start = Except.ok out)
    (hfc : fc ∈ out.geojsons) :
    ∀ f1 ∈ fc, ∀ f2 ∈ fc, f1.coordinates = f2.coordinates := by
  obtain ⟨md, name, cv, ne, E', ns, S', st, gj, t0, tN, hmd, hname, hcv, hne, hE',
    hns, hS', hst', hgj, ht0, htN, hout⟩ := render_ok_elim g traj start out h
  rw [hout] at hfc
  simp only [buildGeojsons] at hgj
  obtain ⟨x, _, hbc⟩ := mapE_mem _ _ _ hgj fc hfc
  simp only [buildCollection] at hbc
  intro f1 h1 f2 h2
  obtain ⟨p1, _, hbf1⟩ := mapE_mem _ _ _ hbc f1 h1
  obtain ⟨p2, _, hbf2⟩ := mapE_mem _ _ _ hbc f2 h2
  obtain ⟨c1, c0, v, hg1, hg0, _, hfv1⟩ := buildFeature_ok_elim _ _ _ _ _ hbf1
  obtain ⟨d1, d0, w, hh1, hh0, _, hfv2⟩ := buildFeature_ok_elim _ _ _ _ _ hbf2
  rw [hg1] at hh1
  rw [hg0] at hh0
  have e1 : d1 = c1 := by simpa using hh1.symm
  have e0 : d0 = c0 := by simpa using hh0.symm
  rw [hfv1, hfv2, e1, e0]

/-- Witness for C10 at the concrete scenario. -/
theorem C10_constant_geometry_witness :
    GeoPlot.render gpGood trajGood 0 = Except.ok outGood ∧
    [({ coordinates := [2, 1], value := 10, time := 0 } : Feature)] ∈ outGood.geojsons ∧
    (∀ f1 ∈ [({ coordinates := [2, 1], value := 10, time := 0 } : Feature)],
      ∀ f2 ∈ [({ coordinates := [2, 1], value := 10, time := 0 } : Feature)],
      f1.coordinates = f2.coordinates) :=
  ⟨renderGood_eq, List.mem_singleton_self _,
    C10_constant_geometry gpGood trajGood 0 outGood
      [{ coordinates := [2, 1], value := 10, time := 0 }] renderGood_eq
      (List.mem_singleton_self _)⟩

theorem beginsWith_append_left :
    ∀ (p l r : List Char), p.length ≤ l.length →
      beginsWith p (l ++ r) = beginsWith p l := by
  intro p
  induction p with
  | nil => intro l r _; cases l <;> rfl
  | cons c p' ih =>
    intro l r hlen
    cases l with
    | nil => simp at hlen
    | cons d l' =>
      rw [List.cons_append]
      show (c == d && beginsWith p' (l' ++ r)) = (c == d && beginsWith p' l')
      rw [ih l' r (by simpa using hlen)]

theorem beginsWith_self_append :
    ∀ (p r : List Char), beginsWith p (p ++ r) = true := by
  intro p
  induction p with
  | nil => intro r; rfl
  | cons c p' ih =>
    intro r
    rw [List.cons_append]
    show (c == c && beginsWith p' (p' ++ r)) = true
    simp [ih r]

theorem containsSeq_skip :
    ∀ (c : Char) (p l1 l2 : List Char), c ∉ l1 →
      containsSeq (c :: p) (l1 ++ l2) = containsSeq (c :: p) l2 := by
  intro c p l1
  induction l1 with
  | nil => intro l2 _; rfl
  | cons d l1' ih =>
    intro l2 hd
    have hcd : c ≠ d := fun h => hd (by simp [h])
    rw [List.cons_append]
    show (beginsWith (c :: p) (d :: (l1' ++ l2)) || containsSeq (c :: p) (l1' ++ l2))
      = containsSeq (c :: p) l2
    have hbw : beginsWith (c :: p) (d :: (l1' ++ l2)) = false := by
      show (c == d && beginsWith p (l1' ++ l2)) = false
      simp [hcd]
    rw [hbw, ih l2 (fun h => hd (by simp [h]))]
    rfl

theorem containsSeq_head_not_mem :
    ∀ (c : Char) (p l : List Char), c ∉ l → containsSeq (c :: p) l = false := by
  intro c p l
  induction l with
  | nil => intro _; rfl
  | cons d l' ih =>
    intro hd
    have hcd : c ≠ d := fun h => hd (by simp [h])
    show (beginsWith (c :: p) (d :: l') || containsSeq (c :: p) l') = false
    have hbw : beginsWith (c :: p) (d :: l') = false := by
      show (c == d && beginsWith p l') = false
      simp [hcd]
    rw [hbw, ih (fun h => hd (by simp [h]))]
    rfl

theorem containsSeq_mid :
    ∀ (l1 : List Char) (c : Char) (p l2 : List Char),
      containsSeq (c :: p) (l1 ++ ((c :: p) ++ l2)) = true := by
  intro l1
  induction l1 with
  | nil =>
    intro c p l2
    rw [List.nil_append]
    show (beginsWith (c :: p) ((c :: p) ++ l2) || _) = true
    rw [beginsWith_self_append]
    rfl
  | cons d l1' ih =>
    intro c p l2
    rw [List.cons_append]
    show (_ || containsSeq (c :: p) (l1' ++ ((c :: p) ++ l2))) = true
    rw [ih c p l2]
    simp

theorem containsSeq_ph_skip (p : List Char) (identS : String) (l2 : List Char)
    (hplen : p.length ≤ identS.toList.length)
    (hbw : beginsWith p identS.toList = false)
    (hnd : '$' ∉ identS.toList) :
    containsSeq ('$' :: p) (ph identS ++ l2) = containsSeq ('$' :: p) l2 := by
  rw [ph, List.cons_append]
  show (beginsWith ('$' :: p) ('$' :: (identS.toList ++ l2))
      || containsSeq ('$' :: p) (identS.toList ++ l2)) = _
  have h1 : beginsWith ('$' :: p) ('$' :: (identS.toList ++ l2)) = false := by
    show ('$' == '$' && beginsWith p (identS.toList ++ l2)) = false
    rw [beginsWith_append_left p identS.toList l2 hplen, hbw]
    simp
  rw [h1, containsSeq_skip '$' p identS.toList l2 hnd]
  rfl

/-- Helper: no dollar in the full piece 1. -/
theorem tP1_noDollar : '$' ∉ tP1 := by
  rw [tP1]
  intro h
  rcases List.mem_cons.mp h with h | h
  · exact absurd h (by decide)
  · exact tP1b_noDollar h

/-- Helper: no dollar in the full piece 2. -/
theorem tP2_noDollar : '$' ∉ tP2 := by
  rw [tP2]
  intro h
  rcases List.mem_cons.mp h with h | h
  · exact absurd h (by decide)
  · exact tP2b_noDollar h

/-- Helper: no dollar in the full piece 3. -/
theorem tP3_noDollar : '$' ∉ tP3 := by
  rw [tP3]
  intro h
  rcases List.mem_cons.mp h with h | h
  · exact absurd h (by decide)
  · exact tP3b_noDollar h

/-- Helper: no dollar in the full piece 4. -/
theorem tP4_noDollar : '$' ∉ tP4 := by
  rw [tP4]
  intro h
  rcases List.mem_cons.mp h with h | h
  · exact absurd h (by decide)
  · exact tP4b_noDollar h

/-- Helper: no dollar in the full piece 5. -/
theorem tP5_noDollar : '$' ∉ tP5 := by
  rw [tP5]
  intro h
  rcases List.mem_cons.mp h with h | h
  · exact absurd h (by decide)
  · exact tP5b_noDollar h

/-- Helper: no dollar in the full piece 6. -/
theorem tP6_noDollar : '$' ∉ tP6 := by
  rw [tP6]
  intro h
  rcases List.mem_cons.mp h with h | h
  · exact absurd h (by decide)
  · exact tP6b_noDollar h

/-- Helper: the fixed template contains no `$data` placeholder: the
only dollars in it begin `$accessToken`, `$visualType`, `$startTime` or
`$stopTime`. -/
theorem template_no_data_placeholder : strContains geoplot_template "$data" = false := by
  show containsSeq "$data".toList (String.mk templateChars).toList = false
  have hpat : "$data".toList = '$' :: "data".toList := rfl
  have ht : (String.mk templateChars).toList = templateChars := rfl
  rw [hpat, ht, templateChars]
  rw [containsSeq_skip '$' _ tP0 _ tP0_noDollar]
  rw [containsSeq_ph_skip _ "accessToken" _ (by decide) (by decide) (by decide)]
  rw [containsSeq_skip '$' _ tP1 _ tP1_noDollar]
  rw [containsSeq_ph_skip _ "visualType" _ (by decide) (by decide) (by decide)]
  rw [containsSeq_skip '$' _ tP2 _ tP2_noDollar]
  rw [containsSeq_ph_skip _ "visualType" _ (by decide) (by decide) (by decide)]
  rw [containsSeq_skip '$' _ tP3 _ tP3_noDollar]
  rw [containsSeq_ph_skip _ "visualType" _ (by decide) (by decide) (by decide)]
  rw [containsSeq_skip '$' _ tP4 _ tP4_noDollar]
  rw [containsSeq_ph_skip _ "startTime" _ (by decide) (by decide) (by decide)]
  rw [containsSeq_skip '$' _ tP5 _ tP5_noDollar]
  rw [containsSeq_ph_skip _ "stopTime" _ (by decide) (by decide) (by decide)]
  exact containsSeq_head_not_mem '$' _ tP6 tP6_noDollar

/-- Claim C6 (code bug): the spec says the viewer document embeds the
serialized dataset, but the fixed template has no `$data` placeholder
(its script reads an undefined `geoJsons` variable), and
`Template.substitute` silently ignores the extra `data` mapping entry:
the substituted document is completely independent of the serialized
feature collections, while the geodata file does contain them. -/
theorem C6_data_never_embedded :
    strContains geoplot_template "$data" = false ∧
    (∀ (g : GeoPlot) (t0 tN : ℚ) (d1 d2 : String),
      substitute (renderMapping g t0 tN d1) geoplot_template =
        substitute (renderMapping g t0 tN d2) geoplot_template) ∧
    GeoPlot.render gpGood trajGood 0 = Except.ok outGood ∧
    outGood.geojsons ≠ [] ∧
    strContains outGood.geojson_file "FeatureCollection" = true ∧
    outGood.html_file = substitutedTemplate gpGood 0 18000 :=
  ⟨template_no_data_placeholder,
   fun g t0 tN d1 d2 =>
     (substitute_renderMapping g t0 tN d1).trans (substitute_renderMapping g t0 tN d2).symm,
   renderGood_eq,
   by simp [outGood, gjGood],
   by decide,
   rfl⟩

/-- Claim C7 counterexample: with the access token set to the literal
string `$startTime`, render succeeds and the written viewer document
contains the literal placeholder token `$startTime` (spliced values are
not rescanned, but they are also not protected: a token-shaped value
survives into the output verbatim). -/
theorem C7_counterexample :
    GeoPlot.render gpDollar trajGood 0 = Except.ok outDollar ∧
    pyStr gpDollar.cesium_token = "$startTime" ∧
    strContains outDollar.html_file "$startTime" = true := by
  refine ⟨renderDollar_eq, rfl, ?_⟩
  show containsSeq "$startTime".toList outDollar.html_file.toList = true
  have hh : outDollar.html_file.toList = tP0 ++ ("$startTime".toList
      ++ (tP1 ++ ((pyStr gpDollar.visualization_type).toList
      ++ (tP2 ++ ((pyStr gpDollar.visualization_type).toList
      ++ (tP3 ++ ((pyStr gpDollar.visualization_type).toList
      ++ (tP4 ++ ((isoformat 0).toList
      ++ (tP5 ++ ((isoformat 18000).toList ++ tP6))))))))))) := rfl
  have hpat : "$startTime".toList = '$' :: "startTime".toList := rfl
  rw [hh, hpat]
  exact containsSeq_mid tP0 '$' "startTime".toList _

/-- Claim C7 as amended: for every successful render in which none of
the five substituted values contains a dollar character, the written
viewer document contains none of the literal placeholder tokens
`$accessToken`, `$startTime`, `$stopTime`, `$visualType`, and it is
exactly the fixed template with every placeholder occurrence replaced
(`substitute` applied to the render mapping). -/
theorem C7_amended (g : GeoPlot) (traj : List (List JValue)) (start : ℚ)
    (out : RenderOutput)
    (h : GeoPlot.render g traj start = Except.ok out)
    (hvals : ∀ pr ∈ out.mapping, ∀ c ∈ pr.2.toList, c ≠ '$') :
    substitute out.mapping geoplot_template = Except.ok out.html_file ∧
    ∀ tok ∈ placeholderTokens, strContains out.html_file tok = false := by
  obtain ⟨md, name, cv, ne, E', ns, S', st, gj, t0, tN, hmd, hname, hcv, hne, hE',
    hns, hS', hst', hgj, ht0, htN, hout⟩ := render_ok_elim g traj start out h
  rw [hout] at hvals ⊢
  refine ⟨substitute_renderMapping g t0 tN (jsonDumpCollections gj), ?_⟩
  have hv1 : '$' ∉ (pyStr g.cesium_token).toList := fun hc =>
    hvals ("accessToken", pyStr g.cesium_token) (by simp [renderMapping]) '$' hc rfl
  have hv2 : '$' ∉ (isoformat t0).toList := fun hc =>
    hvals ("startTime", isoformat t0) (by simp [renderMapping]) '$' hc rfl
  have hv3 : '$' ∉ (isoformat tN).toList := fun hc =>
    hvals ("stopTime", isoformat tN) (by simp [renderMapping]) '$' hc rfl
  have hv4 : '$' ∉ (pyStr g.visualization_type).toList := fun hc =>
    hvals ("visualType", pyStr g.visualization_type) (by simp [renderMapping]) '$' hc rfl
  have hnot : '$' ∉ (substitutedTemplate g t0 tN).toList := by
    have hst : (substitutedTemplate g t0 tN).toList = tP0
        ++ ((pyStr g.cesium_token).toList
        ++ (tP1 ++ ((pyStr g.visualization_type).toList
        ++ (tP2 ++ ((pyStr g.visualization_type).toList
        ++ (tP3 ++ ((pyStr g.visualization_type).toList
        ++ (tP4 ++ ((isoformat t0).toList
        ++ (tP5 ++ ((isoformat tN).toList ++ tP6))))))))))) := rfl
    rw [hst]
    intro hc
    simp only [List.mem_append] at hc
    rcases hc with hc | hc | hc | hc | hc | hc | hc | hc | hc | hc | hc | hc | hc
    · exact tP0_noDollar hc
    · exact hv1 hc
    · exact tP1_noDollar hc
    · exact hv4 hc
    · exact tP2_noDollar hc
    · exact hv4 hc
    · exact tP3_noDollar hc
    · exact hv4 hc
    · exact tP4_noDollar hc
    · exact hv2 hc
    · exact tP5_noDollar hc
    · exact hv3 hc
    · exact tP6_noDollar hc
  intro tok htok
  simp only [placeholderTokens, List.mem_cons, List.not_mem_nil, or_false] at htok
  rcases htok with rfl | rfl | rfl | rfl
  · exact containsSeq_head_not_mem '$' "accessToken".toList _ hnot
  · exact containsSeq_head_not_mem '$' "startTime".toList _ hnot
  · exact containsSeq_head_not_mem '$' "stopTime".toList _ hnot
  · exact containsSeq_head_not_mem '$' "visualType".toList _ hnot

/-- Witness for the amended C7 at the concrete scenario: none of the
five substituted values contains a dollar, and no placeholder token
survives in the written viewer document. -/
theorem C7_amended_witness :
    GeoPlot.render gpGood trajGood 0 = Except.ok outGood ∧
    (∀ pr ∈ outGood.mapping, ∀ c ∈ pr.2.toList, c ≠ '$') ∧
    (substitute outGood.mapping geoplot_template = Except.ok outGood.html_file ∧
     ∀ tok ∈ placeholderTokens, strContains outGood.html_file tok = false) := by
  have hv : ∀ pr ∈ outGood.mapping, ∀ c ∈ pr.2.toList, c ≠ '$' := by
    set_option maxRecDepth 4000 in decide
  exact ⟨renderGood_eq, hv, C7_amended gpGood trajGood 0 outGood renderGood_eq hv⟩

/-- Claim C8: a missing required key fails with a key-access error that
propagates unmodified — for the five recognized option keys at
construction, and for `simulation_metadata`, `name`, `num_episodes`
and `num_steps_per_episode` at render (the count keys are only reached
once extraction has succeeded, e.g. on an empty trajectory); nothing is
caught, translated or retried. -/
theorem C8_missing_key_errors :
    (∀ (config : JValue) (kvs : List (String × JValue)),
      (∃ k ∈ optionKeys, kvs.lookup k = none) →
      ∃ k ∈ optionKeys, kvs.lookup k = none ∧
        GeoPlot.init config (JValue.obj kvs) = Except.error (RenderError.keyError k)) ∧
    (∀ (g : GeoPlot) (traj : List (List JValue)) (start : ℚ)
        (cvs : List (String × JValue)),
      g.config = JValue.obj cvs → cvs.lookup "simulation_metadata" = none →
      GeoPlot.render g traj start = Except.error (RenderError.keyError "simulation_metadata")) ∧
    (∀ (g : GeoPlot) (traj : List (List JValue)) (start : ℚ)
        (mkvs : List (String × JValue)),
      dictGet g.config "simulation_metadata" = Except.ok (JValue.obj mkvs) →
      mkvs.lookup "name" = none →
      GeoPlot.render g traj start = Except.error (RenderError.keyError "name")) ∧
    (∀ (g : GeoPlot) (start : ℚ) (mkvs : List (String × JValue)) (nm : JValue),
      dictGet g.config "simulation_metadata" = Except.ok (JValue.obj mkvs) →
      mkvs.lookup "name" = some nm →
      mkvs.lookup "num_episodes" = none →
      GeoPlot.render g [] start = Except.error (RenderError.keyError "num_episodes")) ∧
    (∀ (g : GeoPlot) (start : ℚ) (mkvs : List (String × JValue)) (nm : JValue) (E : ℤ),
      dictGet g.config "simulation_metadata" = Except.ok (JValue.obj mkvs) →
      mkvs.lookup "name" = some nm →
      mkvs.lookup "num_episodes" = some (JValue.int E) →
      mkvs.lookup "num_steps_per_episode" = none →
      GeoPlot.render g [] start = Except.error (RenderError.keyError "num_steps_per_episode")) := by
  refine ⟨?_, ?_, ?_, ?_, ?_⟩
  · intro config kvs hex
    by_cases h1 : kvs.lookup "cesium_token" = none
    · exact ⟨"cesium_token", by simp [optionKeys], h1,
        by simp [GeoPlot.init, dictGet, ofOpt, h1, Bind.bind, Except.bind]⟩
    · obtain ⟨v1, hv1⟩ := Option.ne_none_iff_exists'.mp h1
      by_cases h2 : kvs.lookup "step_time" = none
      · exact ⟨"step_time", by simp [optionKeys], h2,
          by simp [GeoPlot.init, dictGet, ofOpt, hv1, h2, Bind.bind, Except.bind]⟩
      · obtain ⟨v2, hv2⟩ := Option.ne_none_iff_exists'.mp h2
        by_cases h3 : kvs.lookup "coordinates" = none
        · exact ⟨"coordinates", by simp [optionKeys], h3,
            by simp [GeoPlot.init, dictGet, ofOpt, hv1, hv2, h3, Bind.bind, Except.bind]⟩
        · obtain ⟨v3, hv3⟩ := Option.ne_none_iff_exists'.mp h3
          by_cases h4 : kvs.lookup "feature" = none
          · exact ⟨"feature", by simp [optionKeys], h4,
              by simp [GeoPlot.init, dictGet, ofOpt, hv1, hv2, hv3, h4, Bind.bind, Except.bind]⟩
          · obtain ⟨v4, hv4⟩ := Option.ne_none_iff_exists'.mp h4
            by_cases h5 : kvs.lookup "visualization_type" = none
            · exact ⟨"visualization_type", by simp [optionKeys], h5,
                by simp [GeoPlot.init, dictGet, ofOpt, hv1, hv2, hv3, hv4, h5,
                  Bind.bind, Except.bind]⟩
            · exfalso
              obtain ⟨k, hk, hnone⟩ := hex
              simp only [optionKeys, List.mem_cons, List.not_mem_nil, or_false] at hk
              rcases hk with rfl | rfl | rfl | rfl | rfl <;> contradiction
  · intro g traj start cvs hcfg hnone
    simp [GeoPlot.render, dictGet, hcfg, hnone, ofOpt, Bind.bind, Except.bind]
  · intro g traj start mkvs hmd hnone
    simp only [GeoPlot.render, Bind.bind, Except.bind]
    rw [hmd]
    simp [dictGet, hnone, ofOpt, Bind.bind, Except.bind]
  · intro g start mkvs nm hmd hname hnone
    simp only [GeoPlot.render, Bind.bind, Except.bind]
    rw [hmd]
    simp [dictGet, hname, hnone, ofOpt, Bind.bind, Except.bind,
      extract, finalStates, foldE]
  · intro g start mkvs nm E hmd hname hne hnone
    simp only [GeoPlot.render, Bind.bind, Except.bind]
    rw [hmd]
    simp [dictGet, hname, hne, hnone, ofOpt, Bind.bind, Except.bind,
      extract, finalStates, foldE, toIntE]

/-- Witness for C8: concrete engines each missing exactly one required
key fail with the corresponding KeyError. -/
theorem C8_missing_key_errors_witness :
    ((∃ k ∈ optionKeys, (([] : List (String × JValue)).lookup k) = none) ∧
     (∃ k ∈ optionKeys, (([] : List (String × JValue)).lookup k) = none ∧
       GeoPlot.init (JValue.obj []) (JValue.obj [])
         = Except.error (RenderError.keyError k))) ∧
    GeoPlot.render gpNoMeta [] 0 = Except.error (RenderError.keyError "simulation_metadata") ∧
    GeoPlot.render gpNoName [] 0 = Except.error (RenderError.keyError "name") ∧
    GeoPlot.render gpNoEpisodes [] 0 = Except.error (RenderError.keyError "num_episodes") ∧
    GeoPlot.render gpNoSteps [] 0
      = Except.error (RenderError.keyError "num_steps_per_episode") := by
  refine ⟨⟨⟨"cesium_token", by simp [optionKeys], rfl⟩,
    C8_missing_key_errors.1 (JValue.obj []) []
      ⟨"cesium_token", by simp [optionKeys], rfl⟩⟩, ?_, ?_, ?_, ?_⟩
  · exact C8_missing_key_errors.2.1 gpNoMeta [] 0 [] rfl rfl
  · exact C8_missing_key_errors.2.2.1 gpNoName [] 0 [] rfl rfl
  · exact C8_missing_key_errors.2.2.2.1 gpNoEpisodes 0
      [("name", JValue.str "x")] (JValue.str "x") rfl rfl rfl
  · exact C8_missing_key_errors.2.2.2.2 gpNoSteps 0
      [("name", JValue.str "x"), ("num_episodes", JValue.int 1)] (JValue.str "x") 1
      rfl rfl rfl rfl

/-- Claim C9: for a trajectory of length 0 or 1 under a valid config
with at least one episode and one step per episode, render succeeds
having processed zero episodes: the geodata document is the empty JSON
array, and the viewer document is still produced with the template
substitutions applied. -/
theorem C9_short_trajectory (g : GeoPlot) (traj : List (List JValue)) (start t : ℚ)
    (E S : ℕ) (nm : String)
    (hcfg : g.config = JValue.obj [("simulation_metadata", JValue.obj
      [("name", JValue.str nm), ("num_episodes", JValue.int (E : ℤ)),
       ("num_steps_per_episode", JValue.int (S : ℤ))])])
    (hst : toRatE g.step_time = Except.ok t)
    (hlen : traj.length ≤ 1) (hE : 1 ≤ E) (hS : 1 ≤ S) :
    ∃ out, GeoPlot.render g traj start = Except.ok out ∧
      out.coords = [] ∧ out.values = [] ∧ out.geojsons = [] ∧
      out.geojson_file = "[]" ∧
      substitute out.mapping geoplot_template = Except.ok out.html_file := by
  have hfs : finalStates traj = [] := by
    rw [finalStates, show traj.length - 1 = 0 from by omega]
    rfl
  have hext : extract g.entity_position g.entity_property traj = Except.ok ([], []) := by
    rw [extract, hfs]
    rfl
  have htn : ((E : ℤ) * (S : ℤ)).toNat = E * S := by
    rw [← Int.natCast_mul, Int.toNat_natCast]
  have hpos : 0 < E * S := Nat.mul_pos hE hS
  have hh : (timeline start t ((E : ℤ) * (S : ℤ)).toNat).head?
      = some (start + (0 : ℚ) * t) := by
    rw [htn, List.head?_eq_getElem?]
    exact timeline_getElem? start t (E * S) 0 hpos
  have hl : (timeline start t ((E : ℤ) * (S : ℤ)).toNat).getLast?
      = some (start + ((E * S - 1 : ℕ) : ℚ) * t) := by
    rw [htn, List.getLast?_eq_getElem?, timeline_length]
    exact timeline_getElem? start t (E * S) (E * S - 1) (by omega)
  have h := render_ok_intro g traj start
    (JValue.obj [("name", JValue.str nm), ("num_episodes", JValue.int (E : ℤ)),
      ("num_steps_per_episode", JValue.int (S : ℤ))])
    (JValue.str nm) ([], []) t [] (start + (0 : ℚ) * t)
    (start + ((E * S - 1 : ℕ) : ℚ) * t) E S
    (by rw [hcfg]; rfl) rfl hext rfl rfl hst rfl hh hl
  exact ⟨_, h, rfl, rfl, rfl, rfl,
    substitute_renderMapping g (start + (0 : ℚ) * t) (start + ((E * S - 1 : ℕ) : ℚ) * t)
      (jsonDumpCollections [])⟩

/-- Witness for C9: rendering the empty trajectory under the concrete
config succeeds with an empty geodata array and a substituted viewer
document. -/
theorem C9_short_trajectory_witness :
    (gpGood.config = JValue.obj [("simulation_metadata", JValue.obj
      [("name", JValue.str "sim"), ("num_episodes", JValue.int ((3 : ℕ) : ℤ)),
       ("num_steps_per_episode", JValue.int ((2 : ℕ) : ℤ))])]) ∧
    toRatE gpGood.step_time = Except.ok 3600 ∧
    ([] : List (List JValue)).length ≤ 1 ∧ 1 ≤ 3 ∧ 1 ≤ 2 ∧
    (∃ out, GeoPlot.render gpGood [] 0 = Except.ok out ∧
      out.coords = [] ∧ out.values = [] ∧ out.geojsons = [] ∧
      out.geojson_file = "[]" ∧
      substitute out.mapping geoplot_template = Except.ok out.html_file) :=
  ⟨rfl, rfl, by norm_num, by norm_num, by norm_num,
    C9_short_trajectory gpGood [] 0 3600 3 2 "sim" rfl rfl (by norm_num)
      (by norm_num) (by norm_num)⟩
